import Mathlib

/-!
Shallow embedding of the interview-bot per-session evaluation pipeline.

The embedded modules, and the source files they are translated from:
* evaluation engine (`evaluateAnswer` and its three analyzers): `src/unnamed/part_007`;
* adaptive difficulty manager (`AdaptiveDifficultyManager`): the adaptive module in
  `src/backend/test-basic.js`;
* anti-cheat monitor (`AntiCheatMonitor`): `src/unnamed/part_006`;
* skill-gap detector (`SkillGapDetector`): `src/backend/modules/skill-gap.js`;
* performance tiers (`getPerformanceTier`): `src/backend/modules/feedback.js`.

Numbers are embedded as `ℚ` (JavaScript numbers on the exact decimal constants the
code uses), wall-clock times (`Date.now()`) as explicit `ℚ` millisecond arguments,
and JS arrays as Lean lists with `push` modelled by appending at the right end.
Presentation-only record fields (human-readable `detail` strings of anti-cheat flags,
ISO timestamps in the adaptation log, reporting densities) are omitted; every field
that feeds a computation is kept.
-/

/-- JS `Math.round`: round half away from zero toward positive infinity,
`Math.round x = ⌊x + 1/2⌋`. -/
def jsRound (q : ℚ) : ℤ := ⌊q + 1/2⌋

/-- JS `x || d` for a numeric option field: `0` is falsy and falls back to the default. -/
def jsOrNat (x d : ℕ) : ℕ := if x = 0 then d else x

/-- JS `x || d` for a rational value: `0` is falsy and falls back to the default. -/
def jsOrQ (x d : ℚ) : ℚ := if x = 0 then d else x

-- ─── String helpers (JS string primitives used by the modules) ───

/-- JS `String.prototype.toLowerCase` (per-character lowering). -/
def lowerStr (s : String) : String := String.mk (s.toList.map Char.toLower)

/-- Whitespace as matched by the `\s` class in the regexes the source uses
(restricted to the common ASCII whitespace characters). -/
def isWs (c : Char) : Bool := c == ' ' || c == '\t' || c == '\n' || c == '\r'

/-- Is `pat` an initial segment of `s`? -/
def isPrefL : List Char → List Char → Bool
  | [], _ => true
  | _ :: _, [] => false
  | p :: ps, c :: cs => p == c && isPrefL ps cs

/-- Substring test: JS `hay.includes(pat)`. -/
def containsL (hay pat : List Char) : Bool :=
  match hay with
  | [] => pat.isEmpty
  | _ :: t => isPrefL pat hay || containsL t pat

/-- JS `s.includes(pat)`. -/
def jsIncludes (s pat : String) : Bool := containsL s.toList pat.toList

/-- Accumulator-passing core of `jsSplitWs`.  `some cur` means a field is being
accumulated (in reverse); `none` means we are inside a whitespace separator run
whose preceding field has already been emitted. -/
def jsSplitWsAux : List Char → Option (List Char) → List (List Char)
  | [], some cur => [cur.reverse]
  | [], none => [[]]
  | c :: cs, some cur =>
      if isWs c then cur.reverse :: jsSplitWsAux cs none
      else jsSplitWsAux cs (some (c :: cur))
  | c :: cs, none =>
      if isWs c then jsSplitWsAux cs none
      else jsSplitWsAux cs (some [c])

/-- JS `s.split(/\s+/)`: fields between maximal whitespace runs; a leading or
trailing run contributes an empty field, and `"".split(/\s+/)` is `[""]`. -/
def jsSplitWs (s : String) : List String :=
  (jsSplitWsAux s.toList (some [])).map (fun l => String.mk l)

/-- JS `answer.trim().split(/\s+/).filter(w => w.length > 0)`: with the empty
fields filtered out, trimming first makes no difference. -/
def wordsOf (s : String) : List String :=
  (jsSplitWs s).filter (fun w => !(w == ""))

/-- Split a character list at every character satisfying `p` (single-character
separators, empty fields kept). -/
def splitEvery (p : Char → Bool) : List Char → List (List Char)
  | [] => [[]]
  | c :: cs =>
      if p c then [] :: splitEvery p cs
      else
        match splitEvery p cs with
        | [] => [[c]]
        | f :: rest => (c :: f) :: rest

/-- The sentence separators of the regex `[.!?]+`. -/
def isSentenceSep (c : Char) : Bool := c == '.' || c == '!' || c == '?'

/-- JS `answer.split(/[.!?]+/).filter(s => s.trim().length > 0)`: splitting on
single separators and keeping the fields that contain a non-whitespace character
is equivalent, because the extra fields produced inside a separator run are empty
and get filtered out. -/
def sentencesOf (s : String) : List (List Char) :=
  (splitEvery isSentenceSep s.toList).filter (fun f => f.any (fun c => !(isWs c)))

/-- The JS regex word class `\w` = `[A-Za-z0-9_]`. -/
def isWordChar (c : Char) : Bool := c.isAlpha || c.isDigit || c == '_'

/-- A `\b` boundary holds before the match when there is no previous character
or the previous character is not a word character (the patterns matched this way
start and end with word characters). -/
def boundaryBefore : Option Char → Bool
  | none => true
  | some c => !(isWordChar c)

/-- A `\b` boundary holds after a match of `pat` at the front of `s` when the
character following the matched segment is absent or not a word character. -/
def boundaryAfterOk (pat s : List Char) : Bool :=
  match (s.drop pat.length).head? with
  | none => true
  | some c => !(isWordChar c)

/-- Does the regex `\b<pat>\b` match anywhere in `s`?  `prev` is the character
immediately before the current position. -/
def hasWordBMatch (pat : List Char) : Option Char → List Char → Bool
  | prev, [] => boundaryBefore prev && isPrefL pat [] && boundaryAfterOk pat []
  | prev, c :: cs =>
      (boundaryBefore prev && isPrefL pat (c :: cs) && boundaryAfterOk pat (c :: cs)) ||
        hasWordBMatch pat (some c) cs

/-- Deduplicate keeping the first occurrence of each element, as JS
`[...new Set(xs)]` does. -/
def firstDedup : List String → List String
  | [] => []
  | x :: xs => x :: (firstDedup xs).filter (fun y => !(y == x))

/-- Number of occurrences of `x` in `l`. -/
def countOcc (l : List String) (x : String) : ℕ :=
  (l.filter (fun y => y == x)).length

/-- All three-word windows joined by single spaces, as the anti-cheat trigram
loop builds them. -/
def trigramsOf : List String → List String
  | a :: b :: c :: rest => (a ++ " " ++ b ++ " " ++ c) :: trigramsOf (b :: c :: rest)
  | _ => []

-- ─── Evaluation engine (src/unnamed/part_007) ───

/-- The topic areas of `TECHNICAL_KEYWORDS`. -/
inductive Topic
  | javascript | react | python | database | system_design | general | behavioral
  deriving DecidableEq, Repr

/-- The keyword dictionary by topic (`TECHNICAL_KEYWORDS` in the source). -/
def TECHNICAL_KEYWORDS : Topic → List String
  | .javascript => ["closure", "prototype", "async", "await", "promise", "callback",
      "event loop", "hoisting", "scope", "this", "arrow function", "destructuring",
      "spread", "rest", "module", "import", "export", "class", "inheritance", "dom",
      "api", "fetch", "json", "typescript"]
  | .react => ["component", "state", "props", "hook", "useEffect", "useState",
      "virtual dom", "jsx", "render", "lifecycle", "context", "redux", "memo", "ref",
      "key", "fragment", "portal", "suspense", "lazy"]
  | .python => ["decorator", "generator", "list comprehension", "lambda", "class",
      "inheritance", "exception", "module", "package", "pip", "virtual environment",
      "dict", "tuple", "set", "async", "await", "type hint"]
  | .database => ["sql", "nosql", "index", "query", "join", "normalization",
      "transaction", "acid", "schema", "migration", "orm", "primary key",
      "foreign key", "aggregate", "stored procedure"]
  | .system_design => ["scalability", "load balancer", "caching", "microservice",
      "api gateway", "database sharding", "replication", "cdn", "message queue",
      "rate limiting", "circuit breaker", "consistency", "availability",
      "partition tolerance"]
  | .general => ["algorithm", "data structure", "complexity", "testing", "debugging",
      "version control", "git", "ci/cd", "agile", "scrum", "code review",
      "documentation", "deployment", "monitoring", "security"]
  | .behavioral => ["team", "leadership", "conflict", "challenge", "deadline",
      "communication", "feedback", "collaboration", "priority", "decision",
      "mistake", "learn", "improve", "initiative", "mentor"]

/-- The `topicIndicators` table of `detectRelevantTopics`, in source order. -/
def topicIndicators : List (Topic × List String) :=
  [(.javascript, ["javascript", "js", "node", "typescript", "es6", "ecmascript"]),
   (.react, ["react", "component", "hook", "jsx", "redux", "next.js", "frontend"]),
   (.python, ["python", "django", "flask", "pip", "pandas", "numpy"]),
   (.database, ["database", "sql", "nosql", "mongo", "postgres", "mysql", "query",
      "data model"]),
   (.system_design, ["system design", "architecture", "scalab", "microservice",
      "distributed", "design a"]),
   (.behavioral, ["tell me about", "describe a time", "how do you handle",
      "experience", "challenge", "team", "conflict", "why do you", "what are your",
      "strength", "weakness"])]

/-- `detectRelevantTopics(question)` on an already lowercased question: every
topic one of whose indicator phrases occurs in the question, defaulting to
`general` when none matches. -/
def detectRelevantTopics (question : String) : List Topic :=
  let topics :=
    (topicIndicators.filter (fun ti => ti.2.any (fun ind => jsIncludes question ind))).map
      (fun ti => ti.1)
  if topics.isEmpty then [.general] else topics

/-- The relevant keyword pool of `evaluateKeywordCoverage`: the keywords of every
detected topic, with `general` and `behavioral` always appended when not already
present, deduplicated keeping first occurrences. -/
def relevantKeywordsFor (topics : List Topic) : List String :=
  let base := topics.foldl (fun acc t => acc ++ TECHNICAL_KEYWORDS t) []
  let base := if topics.contains Topic.general then base
    else base ++ TECHNICAL_KEYWORDS Topic.general
  let base := if topics.contains Topic.behavioral then base
    else base ++ TECHNICAL_KEYWORDS Topic.behavioral
  firstDedup base

/-- Result record of `evaluateKeywordCoverage`. -/
structure KeywordAnalysis where
  score : ℤ
  matchedKeywords : List String
  totalRelevant : ℕ
  matchCount : ℕ
  topics : List Topic

/-- `evaluateKeywordCoverage(answer, question)`: coverage ratio over a denominator
capped at 8, scored as `min(10, round(ratio * 10))`. -/
def evaluateKeywordCoverage (answer question : String) : KeywordAnalysis :=
  let lowerAnswer := lowerStr answer
  let lowerQuestion := lowerStr question
  let relevantTopics := detectRelevantTopics lowerQuestion
  let relevantKeywords := relevantKeywordsFor relevantTopics
  let matchedKeywords := relevantKeywords.filter (fun kw => jsIncludes lowerAnswer kw)
  let coverageRatio : ℚ :=
    if 0 < relevantKeywords.length then
      (matchedKeywords.length : ℚ) / ((min relevantKeywords.length 8 : ℕ) : ℚ)
    else 0
  { score := min 10 (jsRound (coverageRatio * 10)),
    matchedKeywords := matchedKeywords,
    totalRelevant := relevantKeywords.length,
    matchCount := matchedKeywords.length,
    topics := relevantTopics }

/-- `STAR_KEYWORDS`: indicator phrases for situation, task, action, result. -/
def STAR_KEYWORDS : List (List String) :=
  [["situation", "context", "background", "working on", "project", "task", "assigned"],
   ["task", "responsible", "goal", "objective", "needed to", "had to", "required"],
   ["action", "implemented", "developed", "created", "built", "designed", "led",
    "initiated", "proposed", "solved"],
   ["result", "outcome", "achieved", "improved", "reduced", "increased", "delivered",
    "successfully", "impact", "metrics"]]

/-- Result record of `evaluateSTARMethod`. -/
structure StarCoverage where
  score : ℤ
  coveredCount : ℕ

/-- `evaluateSTARMethod(answer)`: how many of the four STAR components have an
indicator phrase in the lowercased answer, scored `round(covered / 4 * 10)`. -/
def evaluateSTARMethod (answer : String) : StarCoverage :=
  let lowerAnswer := lowerStr answer
  let coveredCount :=
    (STAR_KEYWORDS.filter (fun kws => kws.any (fun kw => jsIncludes lowerAnswer kw))).length
  { score := jsRound ((coveredCount : ℚ) / 4 * 10), coveredCount := coveredCount }

/-- The word-count score curve of `evaluateCompleteness`. -/
def lengthScoreOf (wordCount : ℕ) : ℤ :=
  if wordCount < 10 then 2
  else if wordCount < 20 then 4
  else if wordCount < 30 then 6
  else if wordCount ≤ 120 then 9
  else if wordCount ≤ 200 then 8
  else 6

/-- The sentence-count score of `evaluateCompleteness`. -/
def structureScoreOf (sentenceCount : ℕ) : ℤ :=
  if 3 ≤ sentenceCount then 10 else if 2 ≤ sentenceCount then 7 else 4

/-- The example-introducing phrases of the `hasExamples` regex. -/
def EXAMPLE_PHRASES : List String :=
  ["for example", "for instance", "such as", "like when", "one time"]

/-- The justification phrases of the `hasSpecifics` regex. -/
def SPECIFIC_PHRASES : List String :=
  ["specifically", "in particular", "the key", "the main", "because", "the reason"]

/-- Result record of `evaluateCompleteness`. -/
structure CompletenessAnalysis where
  score : ℤ
  wordCount : ℕ
  sentenceCount : ℕ
  lengthScore : ℤ
  structureScore : ℤ
  specificityScore : ℤ
  starCoverage : StarCoverage
  hasExamples : Bool
  hasNumbers : Bool

/-- `evaluateCompleteness(answer)`: blend of length, structure, specificity and
STAR sub-scores with weights 0.3 / 0.25 / 0.25 / 0.2, rounded and capped at 10. -/
def evaluateCompleteness (answer : String) : CompletenessAnalysis :=
  let wordCount := (wordsOf answer).length
  let sentenceCount := (sentencesOf answer).length
  let lengthScore := lengthScoreOf wordCount
  let structureScore := structureScoreOf sentenceCount
  let hasNumbers := answer.toList.any Char.isDigit
  let hasExamples := EXAMPLE_PHRASES.any (fun p => jsIncludes (lowerStr answer) p)
  let hasSpecifics := SPECIFIC_PHRASES.any (fun p => jsIncludes (lowerStr answer) p)
  let specificityScore : ℤ :=
    min 10 (4 + (if hasNumbers then 2 else 0) + (if hasExamples then 2 else 0)
      + (if hasSpecifics then 2 else 0))
  let starCoverage := evaluateSTARMethod answer
  let overallScore := jsRound ((lengthScore : ℚ) * 0.3 + (structureScore : ℚ) * 0.25
    + (specificityScore : ℚ) * 0.25 + (starCoverage.score : ℚ) * 0.2)
  { score := min 10 overallScore,
    wordCount := wordCount,
    sentenceCount := sentenceCount,
    lengthScore := lengthScore,
    structureScore := structureScore,
    specificityScore := specificityScore,
    starCoverage := starCoverage,
    hasExamples := hasExamples,
    hasNumbers := hasNumbers }

/-- `HEDGING_PHRASES` (apostrophes written as `\x27`). -/
def HEDGING_PHRASES : List String :=
  ["i think", "maybe", "probably", "i guess", "not sure", "i believe",
   "kind of", "sort of", "um", "uh", "like", "you know", "basically",
   "i don\x27t know", "i\x27m not certain", "it might be", "perhaps",
   "i suppose", "something like", "more or less"]

/-- `FILLER_WORDS`, matched with word boundaries. -/
def FILLER_WORDS : List String :=
  ["um", "uh", "like", "you know", "basically", "actually", "literally",
   "honestly", "right", "so yeah"]

/-- The assertive-language indicator phrases of `evaluateConfidence`. -/
def ASSERTIVE_INDICATORS : List String :=
  ["i am", "i have", "i did", "i will", "i can", "i know",
   "definitely", "certainly", "absolutely", "clearly",
   "my experience", "i successfully", "i led", "i built", "i designed"]

/-- Result record of `evaluateConfidence` (the reporting-only densities are
omitted; they feed no computation). -/
structure ConfidenceAnalysis where
  score : ℤ
  hedgingPhrases : List String
  fillerWords : List String
  assertiveLanguage : List String

/-- `evaluateConfidence(answer)`: start at 7, subtract up to 4 for hedging
(1.5 each) and up to 2 for fillers (0.5 each), add up to 3 for assertive phrases,
round and clamp to [1, 10]. -/
def evaluateConfidence (answer : String) : ConfidenceAnalysis :=
  let lowerAnswer := lowerStr answer
  let hedgingMatches := HEDGING_PHRASES.filter (fun p => jsIncludes lowerAnswer p)
  let fillerMatches :=
    FILLER_WORDS.filter (fun f => hasWordBMatch f.toList none lowerAnswer.toList)
  let assertiveMatches := ASSERTIVE_INDICATORS.filter (fun p => jsIncludes lowerAnswer p)
  let confidenceScore : ℚ := 7
    - min 4 ((hedgingMatches.length : ℚ) * 1.5)
    - min 2 ((fillerMatches.length : ℚ) * 0.5)
    + min 3 ((assertiveMatches.length : ℚ) * 1)
  { score := max 1 (min 10 (jsRound confidenceScore)),
    hedgingPhrases := hedgingMatches,
    fillerWords := fillerMatches,
    assertiveLanguage := assertiveMatches }

/-- `getDimensionRating` of `evaluateAnswer`. -/
def getDimensionRating (score : ℚ) : String :=
  if 8 ≤ score then "excellent"
  else if 6 ≤ score then "good"
  else if 4 ≤ score then "average"
  else "needs_improvement"

/-- `identifyStrengths`, in source push order. -/
def identifyStrengths (keywords : KeywordAnalysis) (completeness : CompletenessAnalysis)
    (confidence : ConfidenceAnalysis) (aiScore : ℚ) : List String :=
  (if 7 ≤ aiScore then ["Strong technical understanding"] else [])
  ++ (if 7 ≤ keywords.score then ["Good use of technical terminology"] else [])
  ++ (if 7 ≤ completeness.score then ["Well-structured and detailed response"] else [])
  ++ (if completeness.hasExamples then ["Provided concrete examples"] else [])
  ++ (if completeness.hasNumbers then ["Used quantifiable data points"] else [])
  ++ (if 7 ≤ confidence.score then ["Confident and assertive communication"] else [])
  ++ (if 3 ≤ completeness.starCoverage.coveredCount then ["Good STAR method structure"] else [])
  ++ (if 2 ≤ confidence.assertiveLanguage.length then ["Assertive language patterns"] else [])

/-- `identifyWeaknesses`, in source push order. -/
def identifyWeaknesses (keywords : KeywordAnalysis) (completeness : CompletenessAnalysis)
    (confidence : ConfidenceAnalysis) (aiScore : ℚ) : List String :=
  (if aiScore < 5 then ["Answer lacks technical accuracy"] else [])
  ++ (if keywords.score < 4 then ["Missing key technical terms"] else [])
  ++ (if completeness.wordCount < 20 then ["Response is too brief"] else [])
  ++ (if 200 < completeness.wordCount then ["Response is too verbose"] else [])
  ++ (if !completeness.hasExamples then ["No concrete examples provided"] else [])
  ++ (if completeness.structureScore < 5 then ["Answer lacks structure"] else [])
  ++ (if confidence.score < 5 then ["Sounds uncertain or hesitant"] else [])
  ++ (if 3 < confidence.hedgingPhrases.length then ["Excessive hedging language"] else [])
  ++ (if 2 < confidence.fillerWords.length then ["Too many filler words"] else [])

/-- `generateImprovementTips`, in source push order. -/
def generateImprovementTips (keywords : KeywordAnalysis) (completeness : CompletenessAnalysis)
    (confidence : ConfidenceAnalysis) (aiScore : ℚ) : List String :=
  (if keywords.score < 5 then ["Use more specific technical terms relevant to the topic"] else [])
  ++ (if completeness.wordCount < 20 then ["Elaborate more - aim for 30-60 words per response"] else [])
  ++ (if !completeness.hasExamples then
        ["Include specific examples: \"For instance...\" or \"In my experience...\""] else [])
  ++ (if !completeness.hasNumbers then
        ["Add metrics when possible: \"reduced load time by 40%\""] else [])
  ++ (if confidence.score < 5 then
        ["Replace \"I think\" and \"maybe\" with \"I know\" and \"I have experience with\""] else [])
  ++ (if 2 < confidence.fillerWords.length then
        ["Reduce filler words (um, uh, like) - pause instead"] else [])
  ++ (if completeness.starCoverage.coveredCount < 2 then
        ["Structure behavioral answers using STAR: Situation, Task, Action, Result"] else [])
  ++ (if completeness.structureScore < 5 then
        ["Use multiple sentences to structure your answer clearly"] else [])
  ++ (if aiScore < 5 then ["Review core concepts in this topic area before the next attempt"] else [])

/-- Result record of `evaluateAnswer` (per-dimension weights and rating buckets of
the source's `dimensions` object are recoverable from the stored analyses via
`getDimensionRating`). -/
structure AnswerEvaluation where
  compositeScore : ℤ
  aiJudgment : ℚ
  keywordCoverage : KeywordAnalysis
  completeness : CompletenessAnalysis
  confidence : ConfidenceAnalysis
  strengths : List String
  weaknesses : List String
  tips : List String

/-- `evaluateAnswer(answer, question, aiScore)`: the weighted composite
`round(aiScore*0.35 + keyword*0.20 + completeness*0.25 + confidence*0.20)`,
returned as `Math.min(10, ...)`. -/
def evaluateAnswer (answer question : String) (aiScore : ℚ) : AnswerEvaluation :=
  let keywordAnalysis := evaluateKeywordCoverage answer question
  let completenessAnalysis := evaluateCompleteness answer
  let confidenceAnalysis := evaluateConfidence answer
  let compositeScore := jsRound (aiScore * 0.35 + (keywordAnalysis.score : ℚ) * 0.20
    + (completenessAnalysis.score : ℚ) * 0.25 + (confidenceAnalysis.score : ℚ) * 0.20)
  { compositeScore := min 10 compositeScore,
    aiJudgment := aiScore,
    keywordCoverage := keywordAnalysis,
    completeness := completenessAnalysis,
    confidence := confidenceAnalysis,
    strengths := identifyStrengths keywordAnalysis completenessAnalysis confidenceAnalysis aiScore,
    weaknesses := identifyWeaknesses keywordAnalysis completenessAnalysis confidenceAnalysis aiScore,
    tips := generateImprovementTips keywordAnalysis completenessAnalysis confidenceAnalysis aiScore }

-- ─── Adaptive difficulty (AdaptiveDifficultyManager in src/backend/test-basic.js) ───

/-- `DIFFICULTY_LEVELS[lvl].scoreThreshold.up` (`null` as `none`).  The source
table has keys 1..3 only; an out-of-range level (unreachable from the
constructor) is totalized to `none`. -/
def levelUp : ℕ → Option ℚ
  | 1 => some 7
  | 2 => some 8
  | 3 => none
  | _ => none

/-- `DIFFICULTY_LEVELS[lvl].scoreThreshold.down` (`null` as `none`), totalized
like `levelUp`. -/
def levelDown : ℕ → Option ℚ
  | 1 => none
  | 2 => some 4
  | 3 => some 5
  | _ => none

/-- `DIFFICULTY_LEVELS[lvl].name`. -/
def levelName : ℕ → String
  | 1 => "Easy"
  | 2 => "Medium"
  | 3 => "Hard"
  | _ => ""

/-- `DIFFICULTY_LEVELS[lvl].promptModifier`. -/
def levelPromptModifier : ℕ → String
  | 1 => "Ask a basic, introductory-level question about fundamentals or definitions."
  | 2 => "Ask a moderate-difficulty question involving practical application or scenario-based thinking."
  | 3 => "Ask an advanced, challenging question about system design, edge cases, or deep technical concepts."
  | _ => ""

/-- The branch of `recordScore` that picks the next level (the up threshold is
tested first, exactly as in the source): up when `avg >= up`, else down when
`avg <= down`, clamped into [1, 3]. -/
def stepLevel (lvl : ℕ) (avg : ℚ) : ℕ :=
  match levelUp lvl, levelDown lvl with
  | some u, some d =>
      if u ≤ avg then min 3 (lvl + 1) else if avg ≤ d then max 1 (lvl - 1) else lvl
  | some u, none => if u ≤ avg then min 3 (lvl + 1) else lvl
  | none, some d => if avg ≤ d then max 1 (lvl - 1) else lvl
  | none, none => lvl

/-- `Math.round(x * 10) / 10`: rounding to one decimal place. -/
def round1 (q : ℚ) : ℚ := (jsRound (q * 10) : ℚ) / 10

/-- `scoreHistory.slice(-windowSize)` followed by the average.  JS `slice(-0)`
is `slice(0)`, the whole array, hence the zero-window case. -/
def rollingAvg (hist : List ℚ) (w : ℕ) : ℚ :=
  let recent := if w = 0 then hist else hist.drop (hist.length - w)
  recent.sum / (recent.length : ℚ)

/-- The follow-up context stored by `shouldFollowUp`. -/
structure FollowUpContext where
  question : String
  answer : String
  score : ℚ

/-- One entry of the adaptation log (the wall-clock `timestamp` string is
omitted; it feeds no computation). -/
structure AdaptEntry where
  questionIndex : ℕ
  score : ℚ
  avgScore : ℚ
  previousLevel : ℕ
  newLevel : ℕ
  changed : Bool

/-- The mutable state of `AdaptiveDifficultyManager`. -/
structure AdaptiveState where
  currentLevel : ℕ
  windowSize : ℕ
  scoreHistory : List ℚ
  levelHistory : List ℕ
  questionIndex : ℕ
  followUpPending : Bool
  followUpContext : Option FollowUpContext
  adaptationLog : List AdaptEntry

/-- The constructor: `startLevel || 1` and `windowSize || 3` (0 is falsy),
empty histories seeded with the starting level. -/
def initAdaptive (startLevel windowSize : ℕ) : AdaptiveState :=
  { currentLevel := jsOrNat startLevel 1,
    windowSize := jsOrNat windowSize 3,
    scoreHistory := [],
    levelHistory := [jsOrNat startLevel 1],
    questionIndex := 0,
    followUpPending := false,
    followUpContext := none,
    adaptationLog := [] }

/-- `recordScore(score)`: push the score, average the rolling window, adjust the
level once at least 2 scores exist, log the adaptation entry and extend the
level history. -/
def recordScore (st : AdaptiveState) (score : ℚ) : AdaptiveState × AdaptEntry :=
  let hist := st.scoreHistory ++ [score]
  let avgScore := rollingAvg hist st.windowSize
  let previousLevel := st.currentLevel
  let newLevel := if 2 ≤ hist.length then stepLevel st.currentLevel avgScore
    else st.currentLevel
  let entry : AdaptEntry :=
    { questionIndex := st.questionIndex,
      score := score,
      avgScore := round1 avgScore,
      previousLevel := previousLevel,
      newLevel := newLevel,
      changed := !(previousLevel == newLevel) }
  ({ st with
      currentLevel := newLevel,
      scoreHistory := hist,
      levelHistory := st.levelHistory ++ [newLevel],
      adaptationLog := st.adaptationLog ++ [entry] },
   entry)

/-- `answer.substring(0, 100)`. -/
def take100 (s : String) : String := String.mk (s.toList.take 100)

/-- `_generateFollowUpPrompt(score, question, answer)` (the `question` parameter
is unused in the source as well). -/
def generateFollowUpPrompt (score : ℚ) (_question answer : String) : String :=
  if score ≤ 4 then
    "The candidate\x27s answer was incomplete or unclear. They said: \"" ++ take100 answer
      ++ "...\" Ask a targeted follow-up to help them demonstrate their knowledge better. For example: \"Can you be more specific about...\" or \"What exactly do you mean by...\""
  else
    "The candidate gave a partial answer. They said: \"" ++ take100 answer
      ++ "...\" Ask them to elaborate on a specific aspect they mentioned but didn\x27t fully explain."

/-- The decision record returned by `shouldFollowUp` (`reason`/`prompt` are
absent, i.e. `none`, on the no-follow-up result as in the source). -/
structure FollowUpDecision where
  shouldFollowUp : Bool
  reason : Option String
  prompt : Option String

/-- `shouldFollowUp(score, question, answer)`: trigger on a borderline score in
[3, 6] when none is pending, else probe deeper on a score >= 8 at every third
question index when none is pending, else clear the pending flag. -/
def shouldFollowUp (st : AdaptiveState) (score : ℚ) (question answer : String) :
    AdaptiveState × FollowUpDecision :=
  if 3 ≤ score ∧ score ≤ 6 ∧ st.followUpPending = false then
    ({ st with
        followUpPending := true,
        followUpContext := some { question := question, answer := answer, score := score } },
     { shouldFollowUp := true,
       reason := some (if score ≤ 4 then "incomplete_answer" else "can_elaborate"),
       prompt := some (generateFollowUpPrompt score question answer) })
  else if 8 ≤ score ∧ st.questionIndex % 3 = 0 ∧ st.followUpPending = false then
    ({ st with
        followUpPending := true,
        followUpContext := some { question := question, answer := answer, score := score } },
     { shouldFollowUp := true,
       reason := some "probe_deeper",
       prompt := some ("The candidate gave an excellent answer. Ask a deeper follow-up question to probe their understanding further. Reference their previous answer: \""
         ++ take100 answer ++ "...\"") })
  else
    ({ st with followUpPending := false, followUpContext := none },
     { shouldFollowUp := false, reason := none, prompt := none })

/-- `QUESTION_TYPES`, the fixed 10-slot rotation. -/
def QUESTION_TYPES : List String :=
  ["technical", "behavioral", "technical", "problem_solving", "technical",
   "behavioral", "technical", "system_design", "situational", "technical"]

/-- `QUESTION_TYPE_PROMPTS[t]` (every rotation entry has a key; unknown types,
which cannot arise, give the empty string). -/
def questionTypePrompt (t : String) : String :=
  if t = "technical" then
    "Ask a technical question about programming concepts, algorithms, or specific technologies."
  else if t = "behavioral" then
    "Ask a behavioral question using the STAR format (e.g., \"Tell me about a time when...\")"
  else if t = "problem_solving" then
    "Present a coding or problem-solving scenario and ask how they would approach it."
  else if t = "system_design" then
    "Ask a system design question about architecture, scalability, or infrastructure."
  else if t = "situational" then
    "Ask a situational question about how they would handle a hypothetical workplace scenario."
  else ""

/-- The configuration record returned by `getNextQuestionConfig`. -/
structure QuestionConfig where
  difficulty : ℕ
  difficultyName : String
  questionType : String
  isFollowUp : Bool
  prompt : String

/-- `getNextQuestionConfig()`: consume a pending follow-up (the stored context
has no `prompt` property, so the source's `this.followUpContext.prompt || ...`
always takes the fallback string), otherwise advance the question index and
rotate through the question types. -/
def getNextQuestionConfig (st : AdaptiveState) : AdaptiveState × QuestionConfig :=
  match st.followUpPending, st.followUpContext with
  | true, some ctx =>
      ({ st with followUpPending := false },
       { difficulty := st.currentLevel,
         difficultyName := levelName st.currentLevel,
         questionType := "follow_up",
         isFollowUp := true,
         prompt := "Ask a follow-up question about: \"" ++ ctx.question ++ "\"" })
  | _, _ =>
      let questionType := QUESTION_TYPES.getD (st.questionIndex % QUESTION_TYPES.length) ""
      ({ st with questionIndex := st.questionIndex + 1 },
       { difficulty := st.currentLevel,
         difficultyName := levelName st.currentLevel,
         questionType := questionType,
         isFollowUp := false,
         prompt := levelPromptModifier st.currentLevel ++ " " ++ questionTypePrompt questionType })

/-- The serialized form produced by `serialize()` (all fields of the state). -/
structure AdaptiveSnapshot where
  currentLevel : ℕ
  windowSize : ℕ
  scoreHistory : List ℚ
  levelHistory : List ℕ
  questionIndex : ℕ
  followUpPending : Bool
  followUpContext : Option FollowUpContext
  adaptationLog : List AdaptEntry

/-- `serialize()`. -/
def serializeAdaptive (st : AdaptiveState) : AdaptiveSnapshot :=
  { currentLevel := st.currentLevel,
    windowSize := st.windowSize,
    scoreHistory := st.scoreHistory,
    levelHistory := st.levelHistory,
    questionIndex := st.questionIndex,
    followUpPending := st.followUpPending,
    followUpContext := st.followUpContext,
    adaptationLog := st.adaptationLog }

/-- `fromSerialized(data)`: a fresh manager constructed with
`{startLevel: data.currentLevel, windowSize: data.windowSize}` whose fields are
then overwritten from the snapshot.  The source's `data.x || default` fallbacks
are identities here: lists and context objects are always truthy in JS, and for
the numeric and boolean fields the fallback is the falsy value itself. -/
def adaptiveFromSerialized (d : AdaptiveSnapshot) : AdaptiveState :=
  { initAdaptive d.currentLevel d.windowSize with
    scoreHistory := d.scoreHistory,
    levelHistory := d.levelHistory,
    questionIndex := d.questionIndex,
    followUpPending := d.followUpPending,
    followUpContext := d.followUpContext,
    adaptationLog := d.adaptationLog }

/-- Fold a list of scores through `recordScore`. -/
def runScores (st : AdaptiveState) (scores : List ℚ) : AdaptiveState :=
  scores.foldl (fun s q => (recordScore s q).1) st

/-- One public operation on the adaptive manager. -/
inductive AdaptiveOp
  | record (score : ℚ)
  | followUp (score : ℚ) (question answer : String)
  | nextConfig

/-- Apply one operation, keeping the state. -/
def applyOp (st : AdaptiveState) : AdaptiveOp → AdaptiveState
  | .record q => (recordScore st q).1
  | .followUp s q a => (shouldFollowUp st s q a).1
  | .nextConfig => (getNextQuestionConfig st).1

/-- Run a sequence of operations. -/
def runOps (st : AdaptiveState) (ops : List AdaptiveOp) : AdaptiveState :=
  ops.foldl applyOp st

-- ─── Anti-cheat monitor (src/unnamed/part_006) ───

/-- One raised flag (the human-readable `detail` string is presentational and
omitted; `type`, `severity` and `points` are kept). -/
structure CheatFlag where
  type : String
  severity : String
  points : ℤ

/-- The mutable state of `AntiCheatMonitor`. -/
structure AntiCheatState where
  responseTimings : List ℚ
  responseLengths : List ℕ
  vocabularyComplexities : List ℚ
  flags : List CheatFlag
  lastQuestionTime : Option ℚ
  overallSuspicionScore : ℤ

/-- The constructor. -/
def initAntiCheat : AntiCheatState :=
  { responseTimings := [],
    responseLengths := [],
    vocabularyComplexities := [],
    flags := [],
    lastQuestionTime := none,
    overallSuspicionScore := 0 }

/-- `questionAsked()`: stamp the current time (milliseconds). -/
def questionAsked (st : AntiCheatState) (now : ℚ) : AntiCheatState :=
  { st with lastQuestionTime := some now }

/-- Check 1: suspiciously fast response (< `MIN_RESPONSE_TIME_SEC` = 3 seconds
for more than 20 words), skipped when no timing is available. -/
def fastResponseCheck (responseTimeSec : Option ℚ) (wordCount : ℕ) : List CheatFlag :=
  match responseTimeSec with
  | some t =>
      if t < 3 ∧ 20 < wordCount then
        [{ type := "fast_response", severity := "medium", points := 15 }]
      else []
  | none => []

/-- Check 2: effective words per minute above `MAX_NATURAL_WPM` = 200 for more
than 15 words (the JS guard `responseTimeSec && responseTimeSec > 0` reduces to
`0 < t` on an available timing). -/
def highWpmCheck (responseTimeSec : Option ℚ) (wordCount : ℕ) : List CheatFlag :=
  match responseTimeSec with
  | some t =>
      if 0 < t ∧ 200 < (wordCount : ℚ) / t * 60 ∧ 15 < wordCount then
        [{ type := "high_wpm", severity := "high", points := 25 }]
      else []
  | none => []

/-- Check 3: sudden length spike — needs `MIN_ANSWERS_FOR_ANALYSIS` = 3 recorded
lengths (current one included), and fires when the current answer is more than
3 times the previous average and longer than 50 words. -/
def lengthSpikeCheck (newLengths : List ℕ) (wordCount : ℕ) : List CheatFlag :=
  if 3 ≤ newLengths.length then
    let previous := newLengths.dropLast
    let avgPrevLength := ((previous.map (fun n => (n : ℚ))).sum) / (previous.length : ℚ)
    if 0 < avgPrevLength ∧ avgPrevLength * 3 < (wordCount : ℚ) ∧ 50 < wordCount then
      [{ type := "length_spike", severity := "medium", points := 15 }]
    else []
  else []

/-- Check 4: vocabulary-complexity spike — needs 3 recorded ratios (current one
included), fires above `COMPLEXITY_SPIKE_THRESHOLD` = 2.5 times the previous
average. -/
def complexitySpikeCheck (newComplexities : List ℚ) (complexityRatio : ℚ) : List CheatFlag :=
  if 3 ≤ newComplexities.length then
    let previous := newComplexities.dropLast
    let avgComplexity := previous.sum / (previous.length : ℚ)
    if 0 < avgComplexity ∧ avgComplexity * 2.5 < complexityRatio then
      [{ type := "complexity_spike", severity := "low", points := 10 }]
    else []
  else []

/-- Check 5: score/timing mismatch — under 5 seconds with a score of at least 9
on more than 30 words, skipped when no timing is available. -/
def scoreTimingCheck (responseTimeSec : Option ℚ) (score : ℚ) (wordCount : ℕ) :
    List CheatFlag :=
  match responseTimeSec with
  | some t =>
      if t < 5 ∧ 9 ≤ score ∧ 30 < wordCount then
        [{ type := "score_timing_mismatch", severity := "high", points := 20 }]
      else []
  | none => []

/-- `detectRepetitivePatterns(text)`: the distinct lowercased word trigrams that
occur more than once, in first-occurrence order. -/
def detectRepetitivePatterns (text : String) : List String :=
  let words := jsSplitWs (lowerStr text)
  let tris := trigramsOf words
  (firstDedup tris).filter (fun t => 1 < countOcc tris t)

/-- Check 6: robotic/repetitive patterns — more than 2 repeated trigrams. -/
def repetitiveCheck (answer : String) : List CheatFlag :=
  if 2 < (detectRepetitivePatterns answer).length then
    [{ type := "repetitive_pattern", severity := "low", points := 5 }]
  else []

/-- `_getSuspicionLevel()` against the `LOW/MEDIUM/HIGH_SUSPICION` thresholds
20 / 40 / 60. -/
def suspicionLevelOf (score : ℤ) : String :=
  if 60 ≤ score then "high"
  else if 40 ≤ score then "medium"
  else if 20 ≤ score then "low"
  else "clean"

/-- The per-answer result of `analyzeAnswer` (the rounded `metrics` block is
presentational and omitted). -/
structure AnalysisResult where
  flags : List CheatFlag
  answerSuspicionPoints : ℤ
  overallSuspicionScore : ℤ
  suspicionLevel : String

/-- The elapsed seconds computed at the top of `analyzeAnswer`.  Both steps are
JS truthiness checks: `this.lastQuestionTime ? now - this.lastQuestionTime :
null` treats a missing stamp and a zero stamp alike as falsy, and
`responseTimeMs ? responseTimeMs / 1000 : null` treats a zero elapsed time as
falsy, all three giving `null`. -/
def responseTimeSecOf (lastQuestionTime : Option ℚ) (now : ℚ) : Option ℚ :=
  match lastQuestionTime with
  | some t0 =>
      if t0 = 0 then none
      else if now - t0 = 0 then none else some ((now - t0) / 1000)
  | none => none

/-- The vocabulary-complexity ratio of `analyzeAnswer`: long words (more than 6
characters) over the word count, 0 on an empty word list. -/
def complexityRatioOf (answer : String) : ℚ :=
  if 0 < (wordsOf answer).length then
    (((wordsOf answer).filter (fun w => 6 < w.length)).length : ℚ)
      / ((wordsOf answer).length : ℚ)
  else 0

/-- `analyzeAnswer(answer, score)` at wall-clock time `now` (milliseconds).
The six checks run in source order; the running suspicion score becomes
`Math.min(100, Math.round(prev * 0.7 + answerPoints * 0.3))`. -/
def analyzeAnswer (st : AntiCheatState) (answer : String) (score : ℚ) (now : ℚ) :
    AntiCheatState × AnalysisResult :=
  let responseTimeSec : Option ℚ := responseTimeSecOf st.lastQuestionTime now
  let wordCount := (wordsOf answer).length
  let complexityRatio : ℚ := complexityRatioOf answer
  let newLengths := st.responseLengths ++ [wordCount]
  let newComplexities := st.vocabularyComplexities ++ [complexityRatio]
  let newTimings := st.responseTimings ++
    (match responseTimeSec with | some t => [t] | none => [])
  let answerFlags :=
    fastResponseCheck responseTimeSec wordCount
    ++ highWpmCheck responseTimeSec wordCount
    ++ lengthSpikeCheck newLengths wordCount
    ++ complexitySpikeCheck newComplexities complexityRatio
    ++ scoreTimingCheck responseTimeSec score wordCount
    ++ repetitiveCheck answer
  let answerPoints : ℤ := (answerFlags.map (fun f => f.points)).sum
  let newSuspicion :=
    min 100 (jsRound ((st.overallSuspicionScore : ℚ) * 0.7 + (answerPoints : ℚ) * 0.3))
  ({ st with
      responseTimings := newTimings,
      responseLengths := newLengths,
      vocabularyComplexities := newComplexities,
      flags := st.flags ++ answerFlags,
      overallSuspicionScore := newSuspicion },
   { flags := answerFlags,
     answerSuspicionPoints := answerPoints,
     overallSuspicionScore := newSuspicion,
     suspicionLevel := suspicionLevelOf newSuspicion })

/-- The snapshot produced by `serialize()`: the five listed fields;
`lastQuestionTime` is not serialized. -/
structure AntiCheatSnapshot where
  responseTimings : List ℚ
  responseLengths : List ℕ
  vocabularyComplexities : List ℚ
  flags : List CheatFlag
  overallSuspicionScore : ℤ

/-- `serialize()` of `AntiCheatMonitor`. -/
def serializeAntiCheat (st : AntiCheatState) : AntiCheatSnapshot :=
  { responseTimings := st.responseTimings,
    responseLengths := st.responseLengths,
    vocabularyComplexities := st.vocabularyComplexities,
    flags := st.flags,
    overallSuspicionScore := st.overallSuspicionScore }

/-- Modelled from the spec: the repository defines `AntiCheatMonitor.serialize`
but no deserializer for it anywhere in the source; section 6 of the spec
requires the persisted snapshot to be round-trippable ("Snapshot must serialize
all four engine states plus the AnswerEvaluation list verbatim
(round-trippable)").  Restoration assigns the five serialized fields; the
`lastQuestionTime` stamp is absent from the snapshot, so it comes back as its
initial `null`. -/
def antiCheatFromSerialized (d : AntiCheatSnapshot) : AntiCheatState :=
  { responseTimings := d.responseTimings,
    responseLengths := d.responseLengths,
    vocabularyComplexities := d.vocabularyComplexities,
    flags := d.flags,
    lastQuestionTime := none,
    overallSuspicionScore := d.overallSuspicionScore }

-- ─── Skill-gap detector (src/backend/modules/skill-gap.js) ───

/-- The five named category expectations of a role baseline. -/
structure Baseline where
  technical : ℚ
  behavioral : ℚ
  problem_solving : ℚ
  system_design : ℚ
  communication : ℚ

/-- `ROLE_BASELINES` (unknown role levels are absent). -/
def ROLE_BASELINES (r : String) : Option Baseline :=
  if r = "junior" then
    some { technical := 5, behavioral := 5, problem_solving := 4, system_design := 3,
           communication := 5 }
  else if r = "mid" then
    some { technical := 7, behavioral := 6, problem_solving := 6, system_design := 5,
           communication := 6 }
  else if r = "senior" then
    some { technical := 8, behavioral := 7, problem_solving := 8, system_design := 7,
           communication := 7 }
  else none

/-- `ROLE_BASELINES[roleLevel] || ROLE_BASELINES.mid` from the constructor. -/
def roleBaseline (r : String) : Baseline :=
  match ROLE_BASELINES r with
  | some b => b
  | none => { technical := 7, behavioral := 6, problem_solving := 6, system_design := 5,
              communication := 6 }

/-- `this.baseline[category] || 5`: a missing category (and a zero entry, both
falsy in JS) falls back to 5. -/
def baselineGet (b : Baseline) (category : String) : ℚ :=
  jsOrQ
    (if category = "technical" then b.technical
     else if category = "behavioral" then b.behavioral
     else if category = "problem_solving" then b.problem_solving
     else if category = "system_design" then b.system_design
     else if category = "communication" then b.communication
     else 0)
    5

/-- `TOPIC_PATTERNS`, in source order. -/
def TOPIC_PATTERNS : List (String × List String) :=
  [("JavaScript/TypeScript", ["javascript", "typescript", "js", "ts", "node", "es6",
      "ecmascript", "v8", "npm"]),
   ("React/Frontend", ["react", "component", "hook", "frontend", "css", "html", "dom",
      "ui", "ux", "next.js", "vue", "angular"]),
   ("Backend/API", ["backend", "api", "rest", "graphql", "server", "express",
      "endpoint", "middleware", "authentication"]),
   ("Database", ["database", "sql", "nosql", "query", "schema", "migration", "orm",
      "mongo", "postgres", "redis"]),
   ("System Design", ["system design", "architecture", "scalab", "microservice",
      "distributed", "load balanc", "caching"]),
   ("Data Structures", ["array", "linked list", "tree", "graph", "hash", "stack",
      "queue", "heap", "data structure"]),
   ("Algorithms", ["algorithm", "sorting", "searching", "recursion",
      "dynamic programming", "complexity", "big o", "time complexity"]),
   ("DevOps/CI-CD", ["docker", "kubernetes", "ci/cd", "pipeline", "deployment", "aws",
      "cloud", "devops", "terraform"]),
   ("Testing", ["testing", "unit test", "integration test", "e2e", "jest", "cypress",
      "tdd", "coverage", "mock"]),
   ("Security", ["security", "xss", "csrf", "authentication", "authorization",
      "encryption", "vulnerability", "owasp"]),
   ("Leadership", ["leadership", "mentor", "team lead", "manage", "delegate",
      "vision", "strategy"]),
   ("Problem Solving", ["problem solving", "approach", "debug", "troubleshoot",
      "root cause", "analyze", "optimize"]),
   ("Communication", ["communicate", "present", "explain", "stakeholder",
      "collaborate", "feedback", "documentation"])]

/-- `_detectTopics(question)`: every topic one of whose patterns occurs in the
lowercased question, defaulting to `"General"`. -/
def detectTopics (question : String) : List String :=
  let lower := lowerStr question
  let detected :=
    (TOPIC_PATTERNS.filter (fun tp => tp.2.any (fun p => jsIncludes lower p))).map
      (fun tp => tp.1)
  if detected.isEmpty then ["General"] else detected

/-- Append `v` to the entry of `k` in an insertion-ordered association list,
creating the entry at the end when absent — JS
`if (!m[k]) m[k] = []; m[k].push(v)`. -/
def alPush (l : List (String × List ℚ)) (k : String) (v : ℚ) : List (String × List ℚ) :=
  match l with
  | [] => [(k, [v])]
  | (k0, vs) :: rest =>
      if k0 = k then (k0, vs ++ [v]) :: rest else (k0, vs) :: alPush rest k v

/-- Lookup in an insertion-ordered association list, `[]` when absent (the
source only uses the length of the result, with `?.length || 0`). -/
def alGet (l : List (String × List ℚ)) (k : String) : List ℚ :=
  match l.find? (fun p => p.1 == k) with
  | some p => p.2
  | none => []

/-- The mutable state of `SkillGapDetector` (the baseline is stored by the
constructor, as in the source). -/
structure SkillGapState where
  roleLevel : String
  baseline : Baseline
  topicScores : List (String × List ℚ)
  questionTypeScores : List (String × List ℚ)
  questionsAnalyzed : ℕ

/-- The constructor, default role level `"mid"` handled by `roleBaseline`. -/
def initSkillGap (roleLevel : String) : SkillGapState :=
  { roleLevel := roleLevel,
    baseline := roleBaseline roleLevel,
    topicScores := [],
    questionTypeScores := [],
    questionsAnalyzed := 0 }

/-- `trackAnswer(question, answer, score, questionType)` (state part; the
returned per-answer summary is derived data). -/
def trackAnswer (st : SkillGapState) (question _answer : String) (score : ℚ)
    (questionType : String) : SkillGapState :=
  let detectedTopics := detectTopics question
  { st with
    questionsAnalyzed := st.questionsAnalyzed + 1,
    topicScores := detectedTopics.foldl (fun acc t => alPush acc t score) st.topicScores,
    questionTypeScores := alPush st.questionTypeScores questionType score }

/-- `_getTopicAverages()`: per-topic average rounded to one decimal. -/
def topicAverages (st : SkillGapState) : List (String × ℚ) :=
  st.topicScores.map (fun p => (p.1, round1 (p.2.sum / (p.2.length : ℚ))))

/-- `_getTypeAverages()`. -/
def typeAverages (st : SkillGapState) : List (String × ℚ) :=
  st.questionTypeScores.map (fun p => (p.1, round1 (p.2.sum / (p.2.length : ℚ))))

/-- The `topicToCategory` map of `_getBaselineForTopic`; every topic not listed
below maps to `"technical"`, which is also the default of the source's
`topicToCategory[topic] || 'technical'`. -/
def topicToCategory (topic : String) : String :=
  if topic = "System Design" then "system_design"
  else if topic = "Algorithms" then "problem_solving"
  else if topic = "Leadership" then "behavioral"
  else if topic = "Problem Solving" then "problem_solving"
  else if topic = "Communication" then "communication"
  else "technical"

/-- `_getBaselineForTopic(topic)`. -/
def baselineForTopic (st : SkillGapState) (topic : String) : ℚ :=
  baselineGet st.baseline (topicToCategory topic)

/-- `_getTopicRecommendation(topic, score)` (the score parameter is unused in
the source as well). -/
def topicRecommendation (topic : String) (_score : ℚ) : String :=
  if topic = "JavaScript/TypeScript" then
    "Review core JS concepts: closures, prototypes, async/await, event loop. Practice on platforms like LeetCode."
  else if topic = "React/Frontend" then
    "Build small React projects focusing on hooks, state management, and component lifecycle."
  else if topic = "Backend/API" then
    "Practice building REST APIs with authentication, error handling, and database integration."
  else if topic = "Database" then
    "Study SQL joins, indexing strategies, and database normalization. Practice query writing."
  else if topic = "System Design" then
    "Study Grokking the System Design Interview. Practice designing real systems like URL shorteners."
  else if topic = "Data Structures" then
    "Review arrays, trees, graphs, hash tables. Implement each from scratch."
  else if topic = "Algorithms" then
    "Practice sorting, searching, and dynamic programming. Aim for 2-3 LeetCode problems daily."
  else if topic = "DevOps/CI-CD" then
    "Set up a simple CI/CD pipeline with GitHub Actions. Learn Docker basics."
  else if topic = "Testing" then
    "Write unit tests for existing code. Learn Jest/Mocha and testing patterns."
  else if topic = "Security" then
    "Study OWASP Top 10. Learn about XSS, CSRF, SQL injection prevention."
  else if topic = "Leadership" then
    "Practice STAR method stories about leadership experiences. Read about engineering management."
  else if topic = "Problem Solving" then
    "Practice breaking down complex problems. Use whiteboard/verbal problem solving."
  else if topic = "Communication" then
    "Record yourself explaining technical concepts. Practice concise, structured answers."
  else
    "Focus on improving " ++ topic ++ " skills through dedicated practice and study."

/-- Severity bucketing of a gap deficit (computed on the unrounded deficit). -/
def gapSeverity (deficit : ℚ) : String :=
  if 3 ≤ deficit then "critical" else if 1.5 ≤ deficit then "significant" else "minor"

/-- One gap entry of `getAnalysis()`. -/
structure Gap where
  topic : String
  currentScore : ℚ
  expectedScore : ℚ
  deficit : ℚ
  severity : String
  recommendation : String
  questionsAsked : ℕ

/-- One strength entry of `getAnalysis()`. -/
structure Strength where
  topic : String
  currentScore : ℚ
  expectedScore : ℚ
  surplus : ℚ

/-- One per-question-type entry of the `typeAnalysis` object. -/
structure TypeAnalysisEntry where
  qType : String
  score : ℚ
  expected : ℚ
  gap : ℚ
  status : String

/-- One prioritized learning-path item. -/
structure LearningPathItem where
  priority : ℕ
  topic : String
  currentLevel : ℚ
  targetLevel : ℚ
  action : String
  estimatedHours : ℕ

/-- Insertion step of the stable descending sort: `x` goes before the first
element whose key does not exceed `f x`.  Elements are inserted right to left
(`foldr`), so `x` is original-earlier than everything already placed and lands
before its ties — the order the stable JS `sort((a, b) => f(b) - f(a))`
produces. -/
def insertDescBy (f : α → ℚ) (x : α) : List α → List α
  | [] => [x]
  | y :: ys => if f y ≤ f x then x :: y :: ys else y :: insertDescBy f x ys

/-- Stable descending sort by `f`, as the JS `sort((a, b) => f(b) - f(a))`. -/
def sortDescBy (f : α → ℚ) (l : List α) : List α :=
  l.foldr (insertDescBy f) []

/-- The gap list of `getAnalysis()`: topics whose average sits strictly below
the baseline, sorted by descending (rounded) deficit. -/
def gapsOf (st : SkillGapState) : List Gap :=
  sortDescBy (fun g => g.deficit)
    ((topicAverages st).filterMap (fun p =>
      let baselineScore := baselineForTopic st p.1
      let deficit := baselineScore - p.2
      if 0 < deficit then
        some { topic := p.1,
               currentScore := p.2,
               expectedScore := baselineScore,
               deficit := round1 deficit,
               severity := gapSeverity deficit,
               recommendation := topicRecommendation p.1 p.2,
               questionsAsked := (alGet st.topicScores p.1).length }
      else none))

/-- The strength list of `getAnalysis()`: topics at least one point above the
baseline, sorted by descending (rounded) surplus. -/
def strengthsOf (st : SkillGapState) : List Strength :=
  sortDescBy (fun s => s.surplus)
    ((topicAverages st).filterMap (fun p =>
      let baselineScore := baselineForTopic st p.1
      let surplus := p.2 - baselineScore
      if 1 ≤ surplus then
        some { topic := p.1,
               currentScore := p.2,
               expectedScore := baselineScore,
               surplus := round1 surplus }
      else none))

/-- `_calculateOverallGapScore(gaps)`: 0 on an empty gap list, otherwise the
total deficit normalized by `gaps.length * 10`, as a 0-100 score capped at
100. -/
def calculateOverallGapScore (gaps : List Gap) : ℤ :=
  if gaps.isEmpty then 0
  else
    let totalDeficit := (gaps.map (fun g => g.deficit)).sum
    let maxPossibleDeficit : ℚ := (gaps.length : ℚ) * 10
    min 100 (jsRound (totalDeficit / maxPossibleDeficit * 100))

/-- `_generateLearningPath(gaps)`: the top 5 non-minor gaps with remediation
hours 20 (critical) or 10 (significant). -/
def generateLearningPath (gaps : List Gap) : List LearningPathItem :=
  (((gaps.filter (fun g => !(g.severity == "minor"))).take 5).enum).map
    (fun pair =>
      { priority := pair.1 + 1,
        topic := pair.2.topic,
        currentLevel := pair.2.currentScore,
        targetLevel := pair.2.expectedScore,
        action := pair.2.recommendation,
        estimatedHours := if pair.2.severity = "critical" then 20 else 10 })

/-- The report returned by `getAnalysis()`. -/
structure SkillGapAnalysis where
  roleLevel : String
  questionsAnalyzed : ℕ
  topicScores : List (String × ℚ)
  gaps : List Gap
  strengths : List Strength
  typeAnalysis : List TypeAnalysisEntry
  overallGapScore : ℤ
  prioritizedLearningPath : List LearningPathItem

/-- `getAnalysis()`. -/
def getAnalysis (st : SkillGapState) : SkillGapAnalysis :=
  let gaps := gapsOf st
  { roleLevel := st.roleLevel,
    questionsAnalyzed := st.questionsAnalyzed,
    topicScores := topicAverages st,
    gaps := gaps,
    strengths := strengthsOf st,
    typeAnalysis := (typeAverages st).map (fun p =>
      let expected := baselineGet st.baseline p.1
      { qType := p.1,
        score := p.2,
        expected := expected,
        gap := round1 (expected - p.2),
        status := if expected ≤ p.2 then "meets_expectation" else "below_expectation" }),
    overallGapScore := calculateOverallGapScore gaps,
    prioritizedLearningPath := generateLearningPath gaps }

/-- The snapshot produced by the skill-gap `serialize()`. -/
structure SkillGapSnapshot where
  roleLevel : String
  topicScores : List (String × List ℚ)
  questionTypeScores : List (String × List ℚ)
  questionsAnalyzed : ℕ

/-- `serialize()` of `SkillGapDetector`. -/
def serializeSkillGap (st : SkillGapState) : SkillGapSnapshot :=
  { roleLevel := st.roleLevel,
    topicScores := st.topicScores,
    questionTypeScores := st.questionTypeScores,
    questionsAnalyzed := st.questionsAnalyzed }

/-- `fromSerialized(data)`: reconstruct through the constructor, then overwrite
the tracked maps and counter (the `|| default` fallbacks are identities on the
always-truthy serialized objects, and `0 || 0 = 0`). -/
def skillGapFromSerialized (d : SkillGapSnapshot) : SkillGapState :=
  { initSkillGap d.roleLevel with
    topicScores := d.topicScores,
    questionTypeScores := d.questionTypeScores,
    questionsAnalyzed := d.questionsAnalyzed }

-- ─── Feedback engine (src/backend/modules/feedback.js) ───

/-- One performance tier (the emoji is presentational and omitted). -/
structure PerformanceTier where
  key : String
  min : ℚ
  label : String
  description : String

/-- `getPerformanceTier(score)`: the `PERFORMANCE_TIERS` table is iterated in
insertion order — exceptional (min 9), strong (7.5), competent (6), developing
(4), beginner (0) — returning the first tier whose minimum the score reaches;
when the loop falls through (score < 0) the source returns the beginner tier. -/
def getPerformanceTier (score : ℚ) : PerformanceTier :=
  if 9 ≤ score then
    { key := "exceptional", min := 9, label := "Exceptional",
      description := "Outstanding performance. Interview-ready." }
  else if 7.5 ≤ score then
    { key := "strong", min := 7.5, label := "Strong",
      description := "Solid performance with minor gaps." }
  else if 6 ≤ score then
    { key := "competent", min := 6, label := "Competent",
      description := "Adequate but needs improvement in key areas." }
  else if 4 ≤ score then
    { key := "developing", min := 4, label := "Developing",
      description := "Significant gaps. Needs focused practice." }
  else
    { key := "beginner", min := 0, label := "Beginner",
      description := "Fundamental skills need development." }

-- ─── Spec-worded comparison definitions (for refinement-style claims) ───

/-- The level-transition rule exactly as the specification words it, for
comparison with `stepLevel`: at Easy move up iff the average reaches 7 (never
down), at Medium up iff it reaches 8 and down iff it is at most 4, at Hard down
iff it is at most 5 (never up). -/
def claimStep (lvl : ℕ) (avg : ℚ) : ℕ :=
  if lvl = 1 then (if 7 ≤ avg then 2 else 1)
  else if lvl = 2 then (if 8 ≤ avg then 3 else if avg ≤ 4 then 1 else 2)
  else if lvl = 3 then (if avg ≤ 5 then 2 else 3)
  else lvl

/-- The follow-up decision exactly as the specification words it, for comparison
with `shouldFollowUp`: the triple is (follow-up triggered, reason, pending flag
after the call). -/
def shouldFollowUpSpec (pending : Bool) (questionIndex : ℕ) (score : ℚ) :
    Bool × Option String × Bool :=
  if pending = false ∧ 3 ≤ score ∧ score ≤ 6 then
    (true, some (if score ≤ 4 then "incomplete_answer" else "can_elaborate"), true)
  else if 8 ≤ score ∧ questionIndex % 3 = 0 ∧ pending = false then
    (true, some "probe_deeper", true)
  else (false, none, false)

-- ─── Shared helper lemmas ───

theorem jsRound_nonneg {q : ℚ} (h : 0 ≤ q) : 0 ≤ jsRound q := by
  have : (0:ℚ) ≤ q + 1/2 := by linarith
  simpa [jsRound] using Int.floor_nonneg.mpr this

theorem jsRound_le_intCast {q : ℚ} {n : ℤ} (h : q ≤ (n : ℚ)) : jsRound q ≤ n := by
  have h2 : q + 1/2 < ((n + 1 : ℤ) : ℚ) := by push_cast; linarith
  have h3 : jsRound q < n + 1 := by
    simpa [jsRound] using Int.floor_lt.mpr h2
  omega

theorem lengthScoreOf_bounds (n : ℕ) : 2 ≤ lengthScoreOf n ∧ lengthScoreOf n ≤ 9 := by
  unfold lengthScoreOf; split_ifs <;> norm_num

theorem structureScoreOf_bounds (n : ℕ) : 4 ≤ structureScoreOf n ∧ structureScoreOf n ≤ 10 := by
  unfold structureScoreOf; split_ifs <;> norm_num

theorem starScore_bounds (s : String) :
    0 ≤ (evaluateSTARMethod s).score ∧ (evaluateSTARMethod s).score ≤ 10 := by
  have hc : (STAR_KEYWORDS.filter
      (fun kws => kws.any (fun kw => jsIncludes (lowerStr s) kw))).length ≤ 4 := by
    calc (STAR_KEYWORDS.filter _).length ≤ STAR_KEYWORDS.length := List.length_filter_le _ _
      _ = 4 := by decide
  constructor
  · exact jsRound_nonneg (by positivity)
  · refine jsRound_le_intCast ?_
    have : ((STAR_KEYWORDS.filter
        (fun kws => kws.any (fun kw => jsIncludes (lowerStr s) kw))).length : ℚ) ≤ 4 := by
      exact_mod_cast hc
    push_cast
    linarith

theorem keywordScore_bounds (answer question : String) :
    0 ≤ (evaluateKeywordCoverage answer question).score
      ∧ (evaluateKeywordCoverage answer question).score ≤ 10 := by
  constructor
  · refine le_min (by norm_num) (jsRound_nonneg ?_)
    have h : (0:ℚ) ≤
        (if 0 < (relevantKeywordsFor (detectRelevantTopics (lowerStr question))).length then
          (((relevantKeywordsFor (detectRelevantTopics (lowerStr question))).filter
              (fun kw => jsIncludes (lowerStr answer) kw)).length : ℚ)
            / ((min (relevantKeywordsFor (detectRelevantTopics (lowerStr question))).length 8 : ℕ) : ℚ)
        else 0) := by
      split
      · positivity
      · exact le_refl 0
    nlinarith
  · exact min_le_left _ _

theorem completenessScore_bounds (answer : String) :
    0 ≤ (evaluateCompleteness answer).score ∧ (evaluateCompleteness answer).score ≤ 10 := by
  constructor
  · refine le_min (by norm_num) (jsRound_nonneg ?_)
    have h1 := (lengthScoreOf_bounds (wordsOf answer).length).1
    have h2 := (structureScoreOf_bounds (sentencesOf answer).length).1
    have h4 := (starScore_bounds answer).1
    have h1q : (2:ℚ) ≤ ((lengthScoreOf (wordsOf answer).length : ℤ) : ℚ) := by exact_mod_cast h1
    have h2q : (4:ℚ) ≤ ((structureScoreOf (sentencesOf answer).length : ℤ) : ℚ) := by
      exact_mod_cast h2
    have h4q : (0:ℚ) ≤ (((evaluateSTARMethod answer).score : ℤ) : ℚ) := by exact_mod_cast h4
    have hsInt : (4:ℤ) ≤ min 10 (4 + (if answer.toList.any Char.isDigit then 2 else 0)
        + (if EXAMPLE_PHRASES.any (fun p => jsIncludes (lowerStr answer) p) then 2 else 0)
        + (if SPECIFIC_PHRASES.any (fun p => jsIncludes (lowerStr answer) p) then 2 else 0)) := by
      refine le_min (by norm_num) ?_
      split_ifs <;> norm_num
    have h3q := (Int.cast_le (R := ℚ)).mpr hsInt
    have h4cast : (((4:ℤ)):ℚ) = 4 := by norm_num
    rw [h4cast] at h3q
    linarith
  · exact min_le_left _ _

theorem confidenceScore_bounds (answer : String) :
    1 ≤ (evaluateConfidence answer).score ∧ (evaluateConfidence answer).score ≤ 10 := by
  constructor
  · exact le_max_left _ _
  · exact max_le (by norm_num) (min_le_left _ _)
theorem keyword_empty_score : (evaluateKeywordCoverage "" "").score = 0 := by
  have h0 : (relevantKeywordsFor (detectRelevantTopics (lowerStr ""))).length = 30 := by decide
  have h1 : ((relevantKeywordsFor (detectRelevantTopics (lowerStr ""))).filter
      (fun kw => jsIncludes (lowerStr "") kw)).length = 0 := by decide
  simp only [evaluateKeywordCoverage, h0, h1]
  norm_num [jsRound]

theorem star_empty_score : (evaluateSTARMethod "").score = 0 := by
  have h0 : (STAR_KEYWORDS.filter
      (fun kws => kws.any (fun kw => jsIncludes (lowerStr "") kw))).length = 0 := by decide
  simp only [evaluateSTARMethod, h0]
  norm_num [jsRound]

theorem completeness_empty_score : (evaluateCompleteness "").score = 3 := by
  have hw : (wordsOf "").length = 0 := by decide
  have hs : (sentencesOf "").length = 0 := by decide
  have hn : "".toList.any Char.isDigit = false := by decide
  have hex : EXAMPLE_PHRASES.any (fun p => jsIncludes (lowerStr "") p) = false := by decide
  have hsp : SPECIFIC_PHRASES.any (fun p => jsIncludes (lowerStr "") p) = false := by decide
  simp only [evaluateCompleteness, hw, hs, hn, hex, hsp, star_empty_score]
  norm_num [jsRound, lengthScoreOf, structureScoreOf]

theorem confidence_empty_score : (evaluateConfidence "").score = 7 := by
  have hh : HEDGING_PHRASES.filter (fun p => jsIncludes (lowerStr "") p) = [] := by decide
  have hf : FILLER_WORDS.filter (fun f => hasWordBMatch f.toList none (lowerStr "").toList) = [] := by
    decide
  have ha : ASSERTIVE_INDICATORS.filter (fun p => jsIncludes (lowerStr "") p) = [] := by decide
  simp only [evaluateConfidence, hh, hf, ha]
  norm_num [jsRound]
-- ─── C1: composite score formula and range ───

/-- C1, counterexample.  The claim says the composite is never below 0 for any
integer llmScore, with every dimension clamped to [0, 10] before weighting.  The
code clamps neither the aiJudgment dimension nor the low side of the composite:
at llmScore = -10 on the empty answer and question the composite evaluates to
-1, which is below 0. -/
theorem evaluateAnswer_negative_composite_counterexample :
    (evaluateAnswer "" "" (-10)).compositeScore = -1
      ∧ (evaluateAnswer "" "" (-10)).compositeScore < 0 := by
  have h : (evaluateAnswer "" "" (-10)).compositeScore = -1 := by
    simp only [evaluateAnswer, keyword_empty_score, completeness_empty_score,
      confidence_empty_score]
    norm_num [jsRound]
  exact ⟨h, by rw [h]; norm_num⟩

/-- C1, amended.  For every answer, question and llmScore `a`, the composite is
`min 10 (round (0.35 a + 0.20 kw + 0.25 comp + 0.20 conf))`: the analyzer
dimensions land in [0, 10], [0, 10] and [1, 10] by construction (no clamping is
applied to them at weighting time), `a` enters unclamped, and the composite is
capped above at 10 but not clamped below — it lies in [0, 10] whenever
`0 ≤ a`. -/
theorem evaluateAnswer_composite_formula (answer question : String) (a : ℚ) :
    (evaluateAnswer answer question a).compositeScore
        = min 10 (jsRound (a * 0.35 + ((evaluateKeywordCoverage answer question).score : ℚ) * 0.20
            + ((evaluateCompleteness answer).score : ℚ) * 0.25
            + ((evaluateConfidence answer).score : ℚ) * 0.20))
      ∧ (0 ≤ (evaluateKeywordCoverage answer question).score
          ∧ (evaluateKeywordCoverage answer question).score ≤ 10)
      ∧ (0 ≤ (evaluateCompleteness answer).score ∧ (evaluateCompleteness answer).score ≤ 10)
      ∧ (1 ≤ (evaluateConfidence answer).score ∧ (evaluateConfidence answer).score ≤ 10)
      ∧ (0 ≤ a → 0 ≤ (evaluateAnswer answer question a).compositeScore
          ∧ (evaluateAnswer answer question a).compositeScore ≤ 10) := by
  refine ⟨rfl, keywordScore_bounds answer question, completenessScore_bounds answer,
    confidenceScore_bounds answer, fun ha => ⟨?_, ?_⟩⟩
  · show 0 ≤ min 10 (jsRound _)
    refine le_min (by norm_num) (jsRound_nonneg ?_)
    have hk := (keywordScore_bounds answer question).1
    have hc := (completenessScore_bounds answer).1
    have hf := (confidenceScore_bounds answer).1
    have hkq : (0:ℚ) ≤ ((evaluateKeywordCoverage answer question).score : ℚ) := by
      exact_mod_cast hk
    have hcq : (0:ℚ) ≤ ((evaluateCompleteness answer).score : ℚ) := by exact_mod_cast hc
    have hfq : (1:ℚ) ≤ ((evaluateConfidence answer).score : ℚ) := by exact_mod_cast hf
    nlinarith
  · exact min_le_left _ _

/-- C1, witness for the amended theorem at answer `""`, question `""`,
llmScore 3. -/
theorem evaluateAnswer_composite_formula_witness :
    0 ≤ (3:ℚ)
      ∧ 0 ≤ (evaluateAnswer "" "" 3).compositeScore
      ∧ (evaluateAnswer "" "" 3).compositeScore ≤ 10 :=
  ⟨by norm_num,
   ((evaluateAnswer_composite_formula "" "" 3).2.2.2.2 (by norm_num)).1,
   ((evaluateAnswer_composite_formula "" "" 3).2.2.2.2 (by norm_num)).2⟩

-- ─── C3: the empty-answer floor values ───

/-- C3, counterexample.  The claim asserts completeness at most 2 and composite
`round(0.20 * 7) = 1` for the empty answer with llmScore 0.  In the code the
completeness blend of the empty answer is `round(2*0.3 + 4*0.25 + 4*0.25 + 0*0.2)
= round(2.6) = 3`, and the composite is `round(0*0.35 + 0*0.20 + 3*0.25 + 7*0.20)
= round(2.15) = 2`. -/
theorem empty_answer_floor_counterexample :
    ¬((evaluateCompleteness "").score ≤ 2)
      ∧ ¬((evaluateAnswer "" "" 0).compositeScore = 1) := by
  have hcomp : (evaluateAnswer "" "" 0).compositeScore = 2 := by
    simp only [evaluateAnswer, keyword_empty_score, completeness_empty_score,
      confidence_empty_score]
    norm_num [jsRound]
  rw [completeness_empty_score, hcomp]
  norm_num

/-- C3, amended.  Evaluating the empty answer with llmScore 0 yields keyword
coverage 0 and confidence 7 as claimed, but completeness 3 (the length floor 2
is blended with structure 4, specificity 4 and STAR 0 and rounds up to 3) and
composite `round(0*0.35 + 0*0.20 + 3*0.25 + 7*0.20) = 2`, not 1. -/
theorem empty_answer_floor_values :
    (evaluateKeywordCoverage "" "").score = 0
      ∧ (evaluateCompleteness "").score = 3
      ∧ (evaluateConfidence "").score = 7
      ∧ (evaluateAnswer "" "" 0).compositeScore = 2 := by
  refine ⟨keyword_empty_score, completeness_empty_score, confidence_empty_score, ?_⟩
  simp only [evaluateAnswer, keyword_empty_score, completeness_empty_score,
    confidence_empty_score]
  norm_num [jsRound]
-- ─── Adaptive state lemmas ───

theorem recordScore_currentLevel (st : AdaptiveState) (q : ℚ) :
    ((recordScore st q).1).currentLevel =
      if 2 ≤ (st.scoreHistory ++ [q]).length then
        stepLevel st.currentLevel (rollingAvg (st.scoreHistory ++ [q]) st.windowSize)
      else st.currentLevel := rfl

theorem recordScore_scoreHistory (st : AdaptiveState) (q : ℚ) :
    ((recordScore st q).1).scoreHistory = st.scoreHistory ++ [q] := rfl

theorem recordScore_windowSize (st : AdaptiveState) (q : ℚ) :
    ((recordScore st q).1).windowSize = st.windowSize := rfl

theorem recordScore_levelHistory (st : AdaptiveState) (q : ℚ) :
    ((recordScore st q).1).levelHistory
      = st.levelHistory ++ [((recordScore st q).1).currentLevel] := rfl

theorem stepLevel_mem {lvl : ℕ} (h : lvl = 1 ∨ lvl = 2 ∨ lvl = 3) (avg : ℚ) :
    stepLevel lvl avg = 1 ∨ stepLevel lvl avg = 2 ∨ stepLevel lvl avg = 3 := by
  rcases h with rfl | rfl | rfl <;>
    simp only [stepLevel, levelUp, levelDown] <;> split_ifs <;> norm_num

theorem stepLevel_dist {lvl : ℕ} (h : lvl = 1 ∨ lvl = 2 ∨ lvl = 3) (avg : ℚ) :
    stepLevel lvl avg ≤ lvl + 1 ∧ lvl ≤ stepLevel lvl avg + 1 := by
  rcases h with rfl | rfl | rfl <;>
    simp only [stepLevel, levelUp, levelDown] <;> split_ifs <;> norm_num

theorem stepLevel_eq_claimStep {lvl : ℕ} (h : lvl = 1 ∨ lvl = 2 ∨ lvl = 3) (avg : ℚ) :
    stepLevel lvl avg = claimStep lvl avg := by
  rcases h with rfl | rfl | rfl <;>
    simp only [stepLevel, claimStep, levelUp, levelDown] <;> norm_num

theorem initAdaptive_currentLevel {L : ℕ} (hL : L = 1 ∨ L = 2 ∨ L = 3) (ws : ℕ) :
    (initAdaptive L ws).currentLevel = L := by
  rcases hL with rfl | rfl | rfl <;> simp [initAdaptive, jsOrNat]

theorem runScores_windowSize (scores : List ℚ) (st : AdaptiveState) :
    (runScores st scores).windowSize = st.windowSize := by
  induction scores generalizing st with
  | nil => rfl
  | cons q qs ih =>
      show (runScores ((recordScore st q).1) qs).windowSize = st.windowSize
      rw [ih, recordScore_windowSize]

theorem runScores_level_mem (scores : List ℚ) (st : AdaptiveState)
    (h : st.currentLevel = 1 ∨ st.currentLevel = 2 ∨ st.currentLevel = 3) :
    (runScores st scores).currentLevel = 1 ∨ (runScores st scores).currentLevel = 2
      ∨ (runScores st scores).currentLevel = 3 := by
  induction scores generalizing st with
  | nil => exact h
  | cons q qs ih =>
      show (runScores ((recordScore st q).1) qs).currentLevel = 1 ∨ _ ∨ _
      refine ih _ ?_
      rw [recordScore_currentLevel]
      split
      · exact stepLevel_mem h _
      · exact h

-- ─── C2: adaptive level dynamics ───

/-- C2, confirmed.  After any run of `recordScore` calls from a starting level in
{1, 2, 3}, one further call keeps the level in {1, 2, 3}, moves it by at most one,
moves it only when at least two scores have been recorded, and computes it from
the rolling average over the last `windowSize` scores by exactly the thresholds
the claim lists (`claimStep` is the claim's wording of the rule). -/
theorem recordScore_level_dynamics (L ws : ℕ) (pre : List ℚ) (s : ℚ)
    (hL : L = 1 ∨ L = 2 ∨ L = 3)
    (hsc : ∀ x ∈ pre ++ [s], 0 ≤ x ∧ x ≤ 10) :
    ((recordScore (runScores (initAdaptive L ws) pre) s).1.currentLevel = 1
        ∨ (recordScore (runScores (initAdaptive L ws) pre) s).1.currentLevel = 2
        ∨ (recordScore (runScores (initAdaptive L ws) pre) s).1.currentLevel = 3)
      ∧ (recordScore (runScores (initAdaptive L ws) pre) s).1.currentLevel
          ≤ (runScores (initAdaptive L ws) pre).currentLevel + 1
      ∧ (runScores (initAdaptive L ws) pre).currentLevel
          ≤ (recordScore (runScores (initAdaptive L ws) pre) s).1.currentLevel + 1
      ∧ ((recordScore (runScores (initAdaptive L ws) pre) s).1.currentLevel
            ≠ (runScores (initAdaptive L ws) pre).currentLevel
          → 2 ≤ (recordScore (runScores (initAdaptive L ws) pre) s).1.scoreHistory.length)
      ∧ (recordScore (runScores (initAdaptive L ws) pre) s).1.currentLevel
          = (if 2 ≤ (runScores (initAdaptive L ws) pre).scoreHistory.length + 1
             then claimStep (runScores (initAdaptive L ws) pre).currentLevel
               (rollingAvg ((runScores (initAdaptive L ws) pre).scoreHistory ++ [s])
                 (runScores (initAdaptive L ws) pre).windowSize)
             else (runScores (initAdaptive L ws) pre).currentLevel) := by
  have hmem := runScores_level_mem pre (initAdaptive L ws)
    (by rw [initAdaptive_currentLevel hL]; exact hL)
  refine ⟨?_, ?_, ?_, ?_, ?_⟩
  · rw [recordScore_currentLevel]
    split
    · exact stepLevel_mem hmem _
    · exact hmem
  · rw [recordScore_currentLevel]
    split
    · exact (stepLevel_dist hmem _).1
    · omega
  · rw [recordScore_currentLevel]
    split
    · exact (stepLevel_dist hmem _).2
    · omega
  · intro hne
    rw [recordScore_scoreHistory]
    by_cases h2 : 2 ≤ ((runScores (initAdaptive L ws) pre).scoreHistory ++ [s]).length
    · simpa using h2
    · rw [recordScore_currentLevel, if_neg h2] at hne
      exact absurd rfl hne
  · rw [recordScore_currentLevel]
    simp only [List.length_append, List.length_singleton]
    split
    · exact stepLevel_eq_claimStep hmem _
    · rfl

/-- C2, witness at starting level 1, window 3, one prior score 9, next score 9. -/
theorem recordScore_level_dynamics_witness :
    ((1:ℕ) = 1 ∨ (1:ℕ) = 2 ∨ (1:ℕ) = 3)
      ∧ (∀ x ∈ ([9] ++ [(9:ℚ)]), 0 ≤ x ∧ x ≤ 10)
      ∧ ((recordScore (runScores (initAdaptive 1 3) [9]) 9).1.currentLevel = 1
          ∨ (recordScore (runScores (initAdaptive 1 3) [9]) 9).1.currentLevel = 2
          ∨ (recordScore (runScores (initAdaptive 1 3) [9]) 9).1.currentLevel = 3) := by
  have hL : (1:ℕ) = 1 ∨ (1:ℕ) = 2 ∨ (1:ℕ) = 3 := Or.inl rfl
  have hsc : ∀ x ∈ ([9] ++ [(9:ℚ)]), 0 ≤ x ∧ x ≤ 10 := by
    intro x hx
    simp only [List.mem_append, List.mem_singleton] at hx
    rcases hx with rfl | rfl <;> norm_num
  exact ⟨hL, hsc, (recordScore_level_dynamics 1 3 [9] 9 hL hsc).1⟩
-- ─── Adaptive history lemmas for the well-formedness invariant ───

theorem shouldFollowUp_histories (st : AdaptiveState) (score : ℚ) (question answer : String) :
    ((shouldFollowUp st score question answer).1.levelHistory = st.levelHistory
      ∧ (shouldFollowUp st score question answer).1.scoreHistory = st.scoreHistory
      ∧ (shouldFollowUp st score question answer).1.currentLevel = st.currentLevel) := by
  unfold shouldFollowUp
  split_ifs <;> exact ⟨rfl, rfl, rfl⟩

theorem getNextQuestionConfig_histories (st : AdaptiveState) :
    ((getNextQuestionConfig st).1.levelHistory = st.levelHistory
      ∧ (getNextQuestionConfig st).1.scoreHistory = st.scoreHistory
      ∧ (getNextQuestionConfig st).1.currentLevel = st.currentLevel) := by
  unfold getNextQuestionConfig
  cases hp : st.followUpPending <;> cases hc : st.followUpContext <;>
    exact ⟨rfl, rfl, rfl⟩

theorem getLast?_append_singleton (l : List α) (a : α) : (l ++ [a]).getLast? = some a := by
  rw [List.getLast?_append_cons]
  rfl

theorem runOps_invariant (L : ℕ) (ops : List AdaptiveOp) (st : AdaptiveState)
    (h1 : st.levelHistory.length = st.scoreHistory.length + 1)
    (h2 : st.levelHistory.head? = some L)
    (h3 : st.levelHistory.getLast? = some st.currentLevel) :
    (runOps st ops).levelHistory.length = (runOps st ops).scoreHistory.length + 1
      ∧ (runOps st ops).levelHistory.head? = some L
      ∧ (runOps st ops).levelHistory.getLast? = some (runOps st ops).currentLevel := by
  induction ops generalizing st with
  | nil => exact ⟨h1, h2, h3⟩
  | cons op ops ih =>
      have hstep : (applyOp st op).levelHistory.length
            = (applyOp st op).scoreHistory.length + 1
          ∧ (applyOp st op).levelHistory.head? = some L
          ∧ (applyOp st op).levelHistory.getLast? = some (applyOp st op).currentLevel := by
        cases op with
        | record q =>
            simp only [applyOp]
            refine ⟨?_, ?_, ?_⟩
            · rw [recordScore_levelHistory, recordScore_scoreHistory]
              simp [h1]
            · rw [recordScore_levelHistory]
              have hne : st.levelHistory ≠ [] := by
                intro hnil; rw [hnil] at h1; simp at h1
              rw [List.head?_append_of_ne_nil _ hne]; exact h2
            · rw [recordScore_levelHistory, getLast?_append_singleton]
        | followUp s q a =>
            simp only [applyOp]
            have h := shouldFollowUp_histories st s q a
            rw [h.1, h.2.1, h.2.2]
            exact ⟨h1, h2, h3⟩
        | nextConfig =>
            simp only [applyOp]
            have h := getNextQuestionConfig_histories st
            rw [h.1, h.2.1, h.2.2]
            exact ⟨h1, h2, h3⟩
      exact ih (applyOp st op) hstep.1 hstep.2.1 hstep.2.2

-- ─── C10: well-formed level history ───

/-- C10, confirmed.  From any starting level L in {1, 2, 3} (and any window
option), after any sequence of `recordScore`, `shouldFollowUp` and
`getNextQuestionConfig` calls the level history is one longer than the score
history (only `recordScore` appends, exactly once per recorded score), starts at
L, and ends at the current level — the feedback report's start/end/peak levels
are computed from a well-formed history. -/
theorem levelHistory_wellformed (L ws : ℕ) (ops : List AdaptiveOp)
    (hL : L = 1 ∨ L = 2 ∨ L = 3) :
    (runOps (initAdaptive L ws) ops).levelHistory.length
        = (runOps (initAdaptive L ws) ops).scoreHistory.length + 1
      ∧ (runOps (initAdaptive L ws) ops).levelHistory.head? = some L
      ∧ (runOps (initAdaptive L ws) ops).levelHistory.getLast?
          = some (runOps (initAdaptive L ws) ops).currentLevel := by
  refine runOps_invariant L ops (initAdaptive L ws) rfl ?_ ?_
  · show some (jsOrNat L 1) = some L
    rcases hL with rfl | rfl | rfl <;> rfl
  · show some (jsOrNat L 1) = some (jsOrNat L 1)
    rfl

/-- C10, witness at L = 1, window 3, operations [record 9, followUp, nextConfig]. -/
theorem levelHistory_wellformed_witness :
    ((1:ℕ) = 1 ∨ (1:ℕ) = 2 ∨ (1:ℕ) = 3)
      ∧ (runOps (initAdaptive 1 3)
            [AdaptiveOp.record 9, AdaptiveOp.followUp 5 "q" "a",
             AdaptiveOp.nextConfig]).levelHistory.length
          = (runOps (initAdaptive 1 3)
              [AdaptiveOp.record 9, AdaptiveOp.followUp 5 "q" "a",
               AdaptiveOp.nextConfig]).scoreHistory.length + 1 :=
  ⟨Or.inl rfl,
   (levelHistory_wellformed 1 3
     [AdaptiveOp.record 9, AdaptiveOp.followUp 5 "q" "a", AdaptiveOp.nextConfig]
     (Or.inl rfl)).1⟩
-- ─── C6: follow-up decision logic ───

/-- C6, confirmed.  For every state, score, question and answer, the triple
(follow-up triggered, reason, pending flag after the call) of `shouldFollowUp`
equals the specification's rule `shouldFollowUpSpec`: borderline scores in
[3, 6] trigger with reason `incomplete_answer` (score at most 4) or
`can_elaborate` when none is pending; otherwise scores of at least 8 at a
question index divisible by 3 trigger `probe_deeper` when none is pending;
every other call clears the pending flag — so at most one follow-up is pending
at any time (the flag is the only pending marker and is set exactly when a
follow-up is triggered). -/
theorem shouldFollowUp_behavior (st : AdaptiveState) (score : ℚ)
    (question answer : String) :
    ((shouldFollowUp st score question answer).2.shouldFollowUp,
     (shouldFollowUp st score question answer).2.reason,
     (shouldFollowUp st score question answer).1.followUpPending)
      = shouldFollowUpSpec st.followUpPending st.questionIndex score := by
  unfold shouldFollowUp shouldFollowUpSpec
  split_ifs <;> simp_all
-- ─── Anti-cheat check lemmas ───

theorem analyzeAnswer_flags (st : AntiCheatState) (answer : String) (score now : ℚ) :
    (analyzeAnswer st answer score now).2.flags
      = fastResponseCheck (responseTimeSecOf st.lastQuestionTime now) (wordsOf answer).length
        ++ highWpmCheck (responseTimeSecOf st.lastQuestionTime now) (wordsOf answer).length
        ++ lengthSpikeCheck (st.responseLengths ++ [(wordsOf answer).length])
            (wordsOf answer).length
        ++ complexitySpikeCheck (st.vocabularyComplexities ++ [complexityRatioOf answer])
            (complexityRatioOf answer)
        ++ scoreTimingCheck (responseTimeSecOf st.lastQuestionTime now) score
            (wordsOf answer).length
        ++ repetitiveCheck answer := rfl

theorem analyzeAnswer_points (st : AntiCheatState) (answer : String) (score now : ℚ) :
    (analyzeAnswer st answer score now).2.answerSuspicionPoints
      = (((analyzeAnswer st answer score now).2.flags).map (fun f => f.points)).sum := rfl

theorem analyzeAnswer_suspicion (st : AntiCheatState) (answer : String) (score now : ℚ) :
    (analyzeAnswer st answer score now).1.overallSuspicionScore
      = min 100 (jsRound ((st.overallSuspicionScore : ℚ) * 0.7
          + ((analyzeAnswer st answer score now).2.answerSuspicionPoints : ℚ) * 0.3)) := rfl

theorem fastResponseCheck_mem {t : Option ℚ} {wc : ℕ} {f : CheatFlag}
    (hf : f ∈ fastResponseCheck t wc) : f.type = "fast_response" ∧ f.points = 15 := by
  rcases t with _ | t <;> simp only [fastResponseCheck] at hf
  · exact absurd hf (List.not_mem_nil f)
  · split at hf
    · rw [List.mem_singleton] at hf
      subst hf
      exact ⟨rfl, rfl⟩
    · exact absurd hf (List.not_mem_nil f)

theorem highWpmCheck_mem {t : Option ℚ} {wc : ℕ} {f : CheatFlag}
    (hf : f ∈ highWpmCheck t wc) : f.type = "high_wpm" ∧ f.points = 25 := by
  rcases t with _ | t <;> simp only [highWpmCheck] at hf
  · exact absurd hf (List.not_mem_nil f)
  · split at hf
    · rw [List.mem_singleton] at hf
      subst hf
      exact ⟨rfl, rfl⟩
    · exact absurd hf (List.not_mem_nil f)

theorem lengthSpikeCheck_mem {l : List ℕ} {wc : ℕ} {f : CheatFlag}
    (hf : f ∈ lengthSpikeCheck l wc) : f.type = "length_spike" ∧ f.points = 15 := by
  simp only [lengthSpikeCheck] at hf
  split at hf
  · split at hf
    · rw [List.mem_singleton] at hf
      subst hf
      exact ⟨rfl, rfl⟩
    · exact absurd hf (List.not_mem_nil f)
  · exact absurd hf (List.not_mem_nil f)

theorem complexitySpikeCheck_mem {l : List ℚ} {r : ℚ} {f : CheatFlag}
    (hf : f ∈ complexitySpikeCheck l r) : f.type = "complexity_spike" ∧ f.points = 10 := by
  simp only [complexitySpikeCheck] at hf
  split at hf
  · split at hf
    · rw [List.mem_singleton] at hf
      subst hf
      exact ⟨rfl, rfl⟩
    · exact absurd hf (List.not_mem_nil f)
  · exact absurd hf (List.not_mem_nil f)

theorem scoreTimingCheck_mem {t : Option ℚ} {s : ℚ} {wc : ℕ} {f : CheatFlag}
    (hf : f ∈ scoreTimingCheck t s wc) :
    f.type = "score_timing_mismatch" ∧ f.points = 20 := by
  rcases t with _ | t <;> simp only [scoreTimingCheck] at hf
  · exact absurd hf (List.not_mem_nil f)
  · split at hf
    · rw [List.mem_singleton] at hf
      subst hf
      exact ⟨rfl, rfl⟩
    · exact absurd hf (List.not_mem_nil f)

theorem repetitiveCheck_mem {answer : String} {f : CheatFlag}
    (hf : f ∈ repetitiveCheck answer) :
    f.type = "repetitive_pattern" ∧ f.points = 5 := by
  simp only [repetitiveCheck] at hf
  split at hf
  · rw [List.mem_singleton] at hf
    subst hf
    exact ⟨rfl, rfl⟩
  · exact absurd hf (List.not_mem_nil f)

theorem analyzeAnswer_flag_points_nonneg (st : AntiCheatState) (answer : String)
    (score now : ℚ) :
    ∀ f ∈ (analyzeAnswer st answer score now).2.flags, 0 ≤ f.points := by
  intro f hf
  rw [analyzeAnswer_flags] at hf
  simp only [List.mem_append] at hf
  rcases hf with ((((h | h) | h) | h) | h) | h
  · rw [(fastResponseCheck_mem h).2]; norm_num
  · rw [(highWpmCheck_mem h).2]; norm_num
  · rw [(lengthSpikeCheck_mem h).2]; norm_num
  · rw [(complexitySpikeCheck_mem h).2]; norm_num
  · rw [(scoreTimingCheck_mem h).2]; norm_num
  · rw [(repetitiveCheck_mem h).2]; norm_num

theorem analyzeAnswer_points_nonneg (st : AntiCheatState) (answer : String)
    (score now : ℚ) :
    0 ≤ (analyzeAnswer st answer score now).2.answerSuspicionPoints := by
  rw [analyzeAnswer_points]
  apply List.sum_nonneg
  intro x hx
  simp only [List.mem_map] at hx
  obtain ⟨f, hf, rfl⟩ := hx
  exact analyzeAnswer_flag_points_nonneg st answer score now f hf
-- ─── C4: suspicion score update ───

/-- C4, confirmed.  One `analyzeAnswer` call from a prior suspicion score in
[0, 100] sets the running score to exactly
`round(prev * 0.7 + currentAnswerPoints * 0.3)` clamped to [0, 100] (the code
writes `min 100 (round ...)`; the lower clamp is redundant because the flag
points are nonnegative), where the answer points are the sum of the raised
flags' point values — so the score stays an integer in [0, 100]. -/
theorem analyzeAnswer_suspicion_update (st : AntiCheatState) (answer : String)
    (score now : ℚ) (h0 : 0 ≤ st.overallSuspicionScore)
    (h100 : st.overallSuspicionScore ≤ 100) :
    (analyzeAnswer st answer score now).1.overallSuspicionScore
        = min 100 (jsRound ((st.overallSuspicionScore : ℚ) * 0.7
            + ((analyzeAnswer st answer score now).2.answerSuspicionPoints : ℚ) * 0.3))
      ∧ (analyzeAnswer st answer score now).1.overallSuspicionScore
          = max 0 (min 100 (jsRound ((st.overallSuspicionScore : ℚ) * 0.7
              + ((analyzeAnswer st answer score now).2.answerSuspicionPoints : ℚ) * 0.3)))
      ∧ (analyzeAnswer st answer score now).2.answerSuspicionPoints
          = (((analyzeAnswer st answer score now).2.flags).map (fun f => f.points)).sum
      ∧ 0 ≤ (analyzeAnswer st answer score now).1.overallSuspicionScore
      ∧ (analyzeAnswer st answer score now).1.overallSuspicionScore ≤ 100 := by
  have hpts := analyzeAnswer_points_nonneg st answer score now
  have harg : (0:ℚ) ≤ (st.overallSuspicionScore : ℚ) * 0.7
      + ((analyzeAnswer st answer score now).2.answerSuspicionPoints : ℚ) * 0.3 := by
    have h0q : (0:ℚ) ≤ (st.overallSuspicionScore : ℚ) := by exact_mod_cast h0
    have hpq : (0:ℚ) ≤ ((analyzeAnswer st answer score now).2.answerSuspicionPoints : ℚ) := by
      exact_mod_cast hpts
    nlinarith
  have hmin : 0 ≤ min 100 (jsRound ((st.overallSuspicionScore : ℚ) * 0.7
      + ((analyzeAnswer st answer score now).2.answerSuspicionPoints : ℚ) * 0.3)) :=
    le_min (by norm_num) (jsRound_nonneg harg)
  refine ⟨analyzeAnswer_suspicion st answer score now, ?_, analyzeAnswer_points st answer score now, ?_, ?_⟩
  · rw [analyzeAnswer_suspicion st answer score now, max_eq_right hmin]
  · rw [analyzeAnswer_suspicion st answer score now]
    exact hmin
  · rw [analyzeAnswer_suspicion st answer score now]
    exact min_le_left _ _

/-- C4, witness at the fresh monitor (prior score 0), empty answer, score 0,
time 0. -/
theorem analyzeAnswer_suspicion_update_witness :
    0 ≤ initAntiCheat.overallSuspicionScore
      ∧ initAntiCheat.overallSuspicionScore ≤ 100
      ∧ 0 ≤ (analyzeAnswer initAntiCheat "" 0 0).1.overallSuspicionScore
      ∧ (analyzeAnswer initAntiCheat "" 0 0).1.overallSuspicionScore ≤ 100 :=
  ⟨by decide, by decide,
   (analyzeAnswer_suspicion_update initAntiCheat "" 0 0 (by decide) (by decide)).2.2.2.1,
   (analyzeAnswer_suspicion_update initAntiCheat "" 0 0 (by decide) (by decide)).2.2.2.2⟩

-- ─── C8: missing timing data degrades gracefully ───

/-- C8, confirmed.  With no prior `questionAsked` stamp the timing-dependent
checks (fast response, words per minute, score/timing mismatch) are skipped and
raise no flags — the raised flags are exactly those of the three non-timing
checks, no timing sample is recorded — and the call is a total function, so it
never fails. -/
theorem analyzeAnswer_missing_timing (st : AntiCheatState) (answer : String)
    (score now : ℚ) (h : st.lastQuestionTime = none) :
    (analyzeAnswer st answer score now).2.flags
        = lengthSpikeCheck (st.responseLengths ++ [(wordsOf answer).length])
            (wordsOf answer).length
          ++ complexitySpikeCheck (st.vocabularyComplexities ++ [complexityRatioOf answer])
            (complexityRatioOf answer)
          ++ repetitiveCheck answer
      ∧ (∀ f ∈ (analyzeAnswer st answer score now).2.flags,
          f.type ≠ "fast_response" ∧ f.type ≠ "high_wpm"
            ∧ f.type ≠ "score_timing_mismatch")
      ∧ (analyzeAnswer st answer score now).1.responseTimings = st.responseTimings := by
  have hsec : responseTimeSecOf st.lastQuestionTime now = none := by
    rw [h]; rfl
  refine ⟨?_, ?_, ?_⟩
  · rw [analyzeAnswer_flags, hsec]
    simp [fastResponseCheck, highWpmCheck, scoreTimingCheck]
  · intro f hf
    rw [analyzeAnswer_flags, hsec] at hf
    simp only [fastResponseCheck, highWpmCheck, scoreTimingCheck, List.nil_append,
      List.append_nil, List.mem_append] at hf
    rcases hf with (h3 | h4) | h6
    · rw [(lengthSpikeCheck_mem h3).1]
      refine ⟨by decide, by decide, by decide⟩
    · rw [(complexitySpikeCheck_mem h4).1]
      refine ⟨by decide, by decide, by decide⟩
    · rw [(repetitiveCheck_mem h6).1]
      refine ⟨by decide, by decide, by decide⟩
  · show st.responseTimings ++ _ = st.responseTimings
    rw [hsec]
    simp

/-- C8, witness at a fresh monitor (no stamp), a nonempty answer, score 5,
time 1000. -/
theorem analyzeAnswer_missing_timing_witness :
    initAntiCheat.lastQuestionTime = none
      ∧ (analyzeAnswer initAntiCheat "hello world" 5 1000).1.responseTimings
          = initAntiCheat.responseTimings :=
  ⟨rfl, (analyzeAnswer_missing_timing initAntiCheat "hello world" 5 1000 rfl).2.2⟩
-- ─── C7: serialization round trips ───

/-- C7, counterexample.  The anti-cheat snapshot omits `lastQuestionTime`, so a
monitor serialized while a question stamp was pending does not reproduce the
next suspicion delta: after `questionAsked` at time 1000 ms, a 21-word answer
at time 3000 ms (elapsed 2 s) earns 40 points (fast-response 15 + high-WPM 25)
on the original monitor but 0 points on the serialize/deserialize round trip of
the same monitor, both fed the identical next input. -/
theorem antiCheat_roundtrip_counterexample :
    (analyzeAnswer (questionAsked initAntiCheat 1000)
        "a b c d e f g h i j k l m n o p q r s t u" 0 3000).2.answerSuspicionPoints = 40
      ∧ (analyzeAnswer
            (antiCheatFromSerialized (serializeAntiCheat (questionAsked initAntiCheat 1000)))
            "a b c d e f g h i j k l m n o p q r s t u" 0 3000).2.answerSuspicionPoints = 0
      ∧ (40:ℤ) ≠ 0 := by
  have hw : (wordsOf "a b c d e f g h i j k l m n o p q r s t u").length = 21 := by decide
  have hrep : detectRepetitivePatterns "a b c d e f g h i j k l m n o p q r s t u" = [] := by
    decide
  have hsec : responseTimeSecOf (questionAsked initAntiCheat 1000).lastQuestionTime 3000
      = some 2 := by
    show responseTimeSecOf (some 1000) 3000 = some 2
    simp only [responseTimeSecOf]
    norm_num
  refine ⟨?_, ?_, by norm_num⟩
  · rw [analyzeAnswer_points, analyzeAnswer_flags, hsec, hw]
    have h1 : fastResponseCheck (some 2) 21
        = [{ type := "fast_response", severity := "medium", points := 15 }] := by
      simp only [fastResponseCheck]
      rw [if_pos (by norm_num)]
    have h2 : highWpmCheck (some 2) 21
        = [{ type := "high_wpm", severity := "high", points := 25 }] := by
      simp only [highWpmCheck]
      rw [if_pos (by norm_num)]
    have h3 : lengthSpikeCheck ((questionAsked initAntiCheat 1000).responseLengths ++ [21]) 21
        = [] := by
      show lengthSpikeCheck ([] ++ [21]) 21 = []
      simp [lengthSpikeCheck]
    have h4 : complexitySpikeCheck ((questionAsked initAntiCheat 1000).vocabularyComplexities
          ++ [complexityRatioOf "a b c d e f g h i j k l m n o p q r s t u"])
          (complexityRatioOf "a b c d e f g h i j k l m n o p q r s t u") = [] := by
      show complexitySpikeCheck ([] ++ [_]) _ = []
      simp [complexitySpikeCheck]
    have h5 : scoreTimingCheck (some 2) 0 21 = [] := by
      simp only [scoreTimingCheck]
      rw [if_neg (by norm_num)]
    have h6 : repetitiveCheck "a b c d e f g h i j k l m n o p q r s t u" = [] := by
      simp [repetitiveCheck, hrep]
    rw [h1, h2, h3, h4, h5, h6]
    norm_num
  · have hback : antiCheatFromSerialized (serializeAntiCheat (questionAsked initAntiCheat 1000))
        = initAntiCheat := rfl
    rw [hback, analyzeAnswer_points, analyzeAnswer_flags, hw]
    have hsec0 : responseTimeSecOf initAntiCheat.lastQuestionTime 3000 = none := rfl
    rw [hsec0]
    have h3 : lengthSpikeCheck (initAntiCheat.responseLengths ++ [21]) 21 = [] := by
      show lengthSpikeCheck ([] ++ [21]) 21 = []
      simp [lengthSpikeCheck]
    have h4 : complexitySpikeCheck (initAntiCheat.vocabularyComplexities
          ++ [complexityRatioOf "a b c d e f g h i j k l m n o p q r s t u"])
          (complexityRatioOf "a b c d e f g h i j k l m n o p q r s t u") = [] := by
      show complexitySpikeCheck ([] ++ [_]) _ = []
      simp [complexitySpikeCheck]
    have h6 : repetitiveCheck "a b c d e f g h i j k l m n o p q r s t u" = [] := by
      simp [repetitiveCheck, hrep]
    rw [h3, h4, h6]
    simp [fastResponseCheck, highWpmCheck, scoreTimingCheck]
/-- C7, amended.  The adaptive round trip restores the state verbatim (its
`startLevel || 1` and `windowSize || 3` fallbacks are identities on the nonzero
values every constructed manager has), and so reproduces every subsequent
`recordScore`; the skill-gap round trip restores the state verbatim whenever the
stored baseline is the one its role level induces (true of every constructed
detector), and so reproduces `getAnalysis`; the anti-cheat round trip restores
the state verbatim only when no question stamp was pending — the snapshot omits
`lastQuestionTime` — and under that condition reproduces every subsequent
`analyzeAnswer`. -/
theorem serialization_roundtrip :
    (∀ st : AdaptiveState, st.currentLevel ≠ 0 → st.windowSize ≠ 0 →
        adaptiveFromSerialized (serializeAdaptive st) = st
          ∧ ∀ s : ℚ, recordScore (adaptiveFromSerialized (serializeAdaptive st)) s
              = recordScore st s)
      ∧ (∀ st : SkillGapState, st.baseline = roleBaseline st.roleLevel →
          skillGapFromSerialized (serializeSkillGap st) = st
            ∧ getAnalysis (skillGapFromSerialized (serializeSkillGap st)) = getAnalysis st)
      ∧ (∀ st : AntiCheatState, st.lastQuestionTime = none →
          antiCheatFromSerialized (serializeAntiCheat st) = st
            ∧ ∀ (answer : String) (score now : ℚ),
                analyzeAnswer (antiCheatFromSerialized (serializeAntiCheat st)) answer score now
                  = analyzeAnswer st answer score now) := by
  refine ⟨?_, ?_, ?_⟩
  · intro st hcl hws
    have heq : adaptiveFromSerialized (serializeAdaptive st) = st := by
      cases st
      simp_all [adaptiveFromSerialized, serializeAdaptive, initAdaptive, jsOrNat]
    exact ⟨heq, fun s => by rw [heq]⟩
  · intro st hb
    have heq : skillGapFromSerialized (serializeSkillGap st) = st := by
      cases st
      simp_all [skillGapFromSerialized, serializeSkillGap, initSkillGap]
    exact ⟨heq, by rw [heq]⟩
  · intro st hl
    have heq : antiCheatFromSerialized (serializeAntiCheat st) = st := by
      cases st
      simp_all [antiCheatFromSerialized, serializeAntiCheat]
    exact ⟨heq, fun answer score now => by rw [heq]⟩

/-- C7, witness: the round trips at a freshly constructed manager, detector and
monitor. -/
theorem serialization_roundtrip_witness :
    (initAdaptive 1 3).currentLevel ≠ 0
      ∧ (initSkillGap "mid").baseline = roleBaseline "mid"
      ∧ initAntiCheat.lastQuestionTime = none
      ∧ adaptiveFromSerialized (serializeAdaptive (initAdaptive 1 3)) = initAdaptive 1 3
      ∧ skillGapFromSerialized (serializeSkillGap (initSkillGap "mid")) = initSkillGap "mid"
      ∧ antiCheatFromSerialized (serializeAntiCheat initAntiCheat) = initAntiCheat :=
  ⟨by decide, rfl, rfl,
   (serialization_roundtrip.1 (initAdaptive 1 3) (by decide) (by decide)).1,
   (serialization_roundtrip.2.1 (initSkillGap "mid") rfl).1,
   (serialization_roundtrip.2.2 initAntiCheat rfl).1⟩
-- ─── C5: end-to-end three-nines scenario ───

/-- C5, confirmed.  Three answers scoring 9 from level 1 with window 3 give the
level history [1, 1, 2, 3]: its first three entries [1, 1, 2] are the levels in
effect when each of the three questions was answered — no change on the first
call (history shorter than 2), level 2 after the second call (average 9 is at
least 7) — and the third call then raises Medium to Hard.  The skill-gap
analysis of the same three answers (type "technical", topic "General" from the
topic-free question) shows topic "General" at average 9 against the mid/technical
baseline 7, flagged as the sole strength with surplus 2 and no gaps; and every
final composite of at least 9 lands in the "Exceptional" performance tier. -/
theorem end_to_end_scenario :
    (runScores (initAdaptive 1 3) [9, 9, 9]).levelHistory = [1, 1, 2, 3]
      ∧ (runScores (initAdaptive 1 3) [9]).currentLevel = 1
      ∧ (runScores (initAdaptive 1 3) [9, 9]).currentLevel = 2
      ∧ (getAnalysis (trackAnswer (trackAnswer (trackAnswer (initSkillGap "mid")
            "" "" 9 "technical") "" "" 9 "technical") "" "" 9 "technical")).topicScores
          = [("General", 9)]
      ∧ (getAnalysis (trackAnswer (trackAnswer (trackAnswer (initSkillGap "mid")
            "" "" 9 "technical") "" "" 9 "technical") "" "" 9 "technical")).strengths
          = [{ topic := "General", currentScore := 9, expectedScore := 7, surplus := 2 }]
      ∧ (getAnalysis (trackAnswer (trackAnswer (trackAnswer (initSkillGap "mid")
            "" "" 9 "technical") "" "" 9 "technical") "" "" 9 "technical")).gaps = []
      ∧ (∀ s : ℚ, 9 ≤ s → (getPerformanceTier s).label = "Exceptional") := by
  have hdt : detectTopics "" = ["General"] := by decide
  have hst : trackAnswer (trackAnswer (trackAnswer (initSkillGap "mid")
      "" "" 9 "technical") "" "" 9 "technical") "" "" 9 "technical"
      = { roleLevel := "mid", baseline := roleBaseline "mid",
          topicScores := [("General", [9, 9, 9])],
          questionTypeScores := [("technical", [9, 9, 9])],
          questionsAnalyzed := 3 } := by
    simp [trackAnswer, hdt, alPush, initSkillGap, List.foldl]
  refine ⟨?_, ?_, ?_, ?_, ?_, ?_, ?_⟩
  · norm_num [runScores, List.foldl, recordScore, rollingAvg, stepLevel, levelUp, levelDown,
      initAdaptive, jsOrNat, round1, jsRound]
  · norm_num [runScores, List.foldl, recordScore, rollingAvg, stepLevel, levelUp, levelDown,
      initAdaptive, jsOrNat, round1, jsRound]
  · norm_num [runScores, List.foldl, recordScore, rollingAvg, stepLevel, levelUp, levelDown,
      initAdaptive, jsOrNat, round1, jsRound]
  · rw [hst]
    simp +decide only [getAnalysis, topicAverages, List.map]
    norm_num [round1, jsRound]
  · rw [hst]
    simp +decide only [getAnalysis, strengthsOf, topicAverages, baselineForTopic,
      baselineGet, topicToCategory, roleBaseline, ROLE_BASELINES, jsOrQ, sortDescBy,
      insertDescBy, List.filterMap, List.map, List.foldr]
    norm_num [round1, jsRound, insertDescBy]
  · rw [hst]
    simp +decide only [getAnalysis, gapsOf, topicAverages, baselineForTopic,
      baselineGet, topicToCategory, roleBaseline, ROLE_BASELINES, jsOrQ, sortDescBy,
      insertDescBy, List.filterMap, List.map, List.foldr]
    norm_num [round1, jsRound, insertDescBy]
  · intro s hs
    rw [getPerformanceTier, if_pos hs]

/-- C5, witness: the tier conjunct applied at the boundary composite 9. -/
theorem end_to_end_scenario_witness :
    (9:ℚ) ≤ 9 ∧ (getPerformanceTier 9).label = "Exceptional" :=
  ⟨le_refl 9, end_to_end_scenario.2.2.2.2.2.2 9 (le_refl 9)⟩
-- ─── C9: the overall gap score ───

